import Mathlib

/-!
# BundleExecutor (src/execute/bundleExecutor.js)

A shallow embedding of the `BundleExecutor` class and the properties of its
bundle construction, gas-price selection and relay fan-out.

Modelling conventions.

* JavaScript numbers that hold block numbers and the request counter, and
  `BigNumber` amounts of wei, are natural numbers (JavaScript numbers are exact
  on integers below `2 ^ 53`).
* The collaborators (chain provider, signer, contract interface, ABI encoder,
  HTTP transport, configuration file) are the fields of `Env`.  A collaborator
  that is awaited in sequence answers as a function of the history of calls made
  so far, so that two calls of the same query may answer differently.  A relay
  call answers as a function of its content (endpoint and request envelope);
  envelopes of one executor differ in their `id`, so every combination of
  outcomes of the relay calls is some `Env`.
* A method of the class is a function on `Run` (the executor object together
  with the history of collaborator calls) that yields either a value or the
  error raised, and the next `Run`.  For an `async` method the error is the
  rejection of the promise it returns.
* An `async` method runs synchronously up to its first `await`.  `sendBundle`
  takes its `id` and calls `request` before it first awaits, so the calls
  that `sendBundleToMultipleRelays` starts without awaiting take their ids in
  the order in which they are started.
* `JSON.stringify` of the request envelope is the envelope itself; console
  output is not modelled.
-/

namespace BundleExecutor

/-- The reason carried by a raised error or a rejected promise. -/
abbrev Err := String

/-- Parsed relay response (`ethers.utils.fetchJson`). -/
abbrev Response := String

/-- A value handed to `Web3EthAbi.encodeParameters`. -/
inductive AbiValue where
  | text (s : String)
  | number (n : Nat)
  deriving DecidableEq, Repr

/-- Result of `provider.getFeeData()`: each fee is a `BigNumber` or `null`. -/
structure FeeData where
  maxFeePerGas : Option Nat
  maxPriorityFeePerGas : Option Nat
  deriving DecidableEq, Repr

/-- The object `bundleTransactionOptions` of `buildBundles`. -/
structure TransactionOptions where
  gasPrice : Nat
  gasLimit : Nat
  nonce : Nat
  deriving DecidableEq, Repr

/-- The arguments of one `contract.populateTransaction.makeFlashLoan` call. -/
structure FlashLoanCall where
  assets : List String
  amounts : List Nat
  params : String
  overrides : TransactionOptions
  deriving DecidableEq, Repr

/-- The unsigned transaction returned by `populateTransaction.makeFlashLoan`. -/
structure PopulatedTransaction where
  toAddress : String
  data : String
  gasPrice : Nat
  gasLimit : Nat
  nonce : Nat
  deriving DecidableEq, Repr

/-- One entry of a bundle body: `{hash}` or `{tx, canRevert}`. -/
inductive BodyEntry where
  | hash (hash : String)
  | tx (tx : String) (canRevert : Bool)
  deriving DecidableEq, Repr

/-- The `inclusion` object of a bundle. -/
structure Inclusion where
  block : String
  maxBlock : String
  deriving DecidableEq, Repr

/-- The object returned by `bundleWithParams`. -/
structure BundleWithParams where
  version : String
  inclusion : Inclusion
  body : List BodyEntry
  deriving DecidableEq, Repr

/-- The object returned by `prepareRelayRequest`. -/
structure RelayRequest where
  method : String
  params : List BundleWithParams
  id : Nat
  jsonrpc : String
  deriving DecidableEq, Repr

/-- One entry of `this.relayEndpoints`. -/
structure RelayEndpoint where
  name : String
  url : String
  deriving DecidableEq, Repr

/-- The object `this.connectionInfo`. -/
structure ConnectionInfo where
  url : String
  deriving DecidableEq, Repr

/-- The local `connectionInfo` of `request`: the url and the value of the
`X-Flashbots-Signature` header. -/
structure SignedConnection where
  url : String
  signature : String
  deriving DecidableEq, Repr

/-- A call made to a collaborator, recorded when the call is made. -/
inductive Event where
  | getBlockNumber
  | getFeeData
  | getGasPrice
  | getTransactionCount
  | makeFlashLoan (call : FlashLoanCall)
  | signTransaction (tx : PopulatedTransaction)
  | request (req : RelayRequest) (relayUrl : String)
  deriving DecidableEq, Repr

/-- The collaborators of the executor. -/
structure Env where
  /-- The call `signer.provider.getBlockNumber()`. -/
  getBlockNumber : List Event → Except Err Nat
  /-- The call `signer.provider.getFeeData()`. -/
  getFeeData : List Event → Except Err FeeData
  /-- The call `signer.provider.getGasPrice()`. -/
  getGasPrice : List Event → Except Err Nat
  /-- The call `signer.getTransactionCount()`. -/
  getTransactionCount : List Event → Except Err Nat
  /-- The call `Web3EthAbi.encodeParameters(types, values)`. -/
  encodeParameters : List String → List AbiValue → Except Err String
  /-- The call `contract.populateTransaction.makeFlashLoan(assets, amounts, params, overrides)`. -/
  makeFlashLoan : List Event → FlashLoanCall → Except Err PopulatedTransaction
  /-- The call `signer.signTransaction(tx)`. -/
  signTransaction : List Event → PopulatedTransaction → Except Err String
  /-- The property `signer.address`. -/
  signerAddress : String
  /-- The call `signer.signMessage(ethers.utils.id(request))`. -/
  signMessage : RelayRequest → Except Err String
  /-- The call `ethers.utils.fetchJson(connectionInfo, request)`. -/
  fetchJson : SignedConnection → RelayRequest → Except Err Response
  /-- The constant `config.mainnetWETHAddress`. -/
  mainnetWETHAddress : String

end BundleExecutor

/-- The fields of a `BundleExecutor` object that the methods read or write
(signer, provider and contract are in `BundleExecutor.Env`). -/
structure BundleExecutor where
  connectionInfo : BundleExecutor.ConnectionInfo
  relayEndpoints : List BundleExecutor.RelayEndpoint
  nextID : Nat
  percentageToKeep : BundleExecutor.AbiValue
  deriving DecidableEq, Repr

namespace BundleExecutor

/-- The executor object and the history of collaborator calls. -/
structure Run where
  self : BundleExecutor
  trace : List Event
  deriving DecidableEq, Repr

/-- A method body: from a `Run`, a value or a raised error, and the next `Run`. -/
def M (α : Type) : Type := Run → Except Err α × Run

/-- Return a value. -/
def M.pure {α : Type} (a : α) : M α := fun r => (.ok a, r)

/-- Sequencing: an error raised by the first part skips the rest. -/
def M.bind {α β : Type} (x : M α) (f : α → M β) : M β := fun r =>
  match x r with
  | (.ok a, r1) => f a r1
  | (.error e, r1) => (.error e, r1)

instance : Monad M where
  pure := M.pure
  bind := M.bind

/-- An awaited call to a collaborator: it answers from the history so far and
the call is appended to the history. -/
def call {α : Type} (ev : Event) (answer : List Event → Except Err α) : M α := fun r =>
  (answer r.trace, { r with trace := r.trace ++ [ev] })

/-- A pure library function that may throw. -/
def liftExcept {α : Type} (x : Except Err α) : M α := fun r => (x, r)

/-- Read a field of `this`. -/
def getSelf : M BundleExecutor := fun r => (.ok r.self, r)

/-- The statement `try { body } catch (e) { handler }`. -/
def tryCatch {α : Type} (body : M α) (handler : Err → M α) : M α := fun r =>
  match body r with
  | (.ok a, r1) => (.ok a, r1)
  | (.error e, r1) => handler e r1

/-- Calling an `async` method without awaiting it: its effects on the executor
happen, and the promise it returns (settled with a value or a reason) is a
value; the call itself does not raise. -/
def start {α : Type} (x : M α) : M (Except Err α) := fun r =>
  ((.ok (x r).1 : Except Err (Except Err α)), (x r).2)

/-- The settled state of a promise given to `.catch(e => console.log(...))`:
a rejection becomes a fulfilment with `undefined`. -/
def catchLog (p : Except Err Response) : Except Err (Option Response) :=
  match p with
  | .ok v => .ok (some v)
  | .error _ => .ok none

/-- A promise pushed as it is: it keeps its value or its rejection. -/
def uncaught (p : Except Err Response) : Except Err (Option Response) :=
  match p with
  | .ok v => .ok (some v)
  | .error e => .error e

/-- One entry of the array `Promise.allSettled` resolves to. -/
inductive Settlement where
  | fulfilled (value : Option Response)
  | rejected (reason : Err)
  deriving DecidableEq, Repr

/-- The array that `Promise.allSettled(promises)` resolves to. -/
def allSettled (promises : List (Except Err (Option Response))) : List Settlement :=
  promises.map fun p =>
    match p with
    | .ok v => .fulfilled v
    | .error e => .rejected e

/-- The table assigned to `this.relayEndpoints` in the constructor. -/
def relayEndpointTable : List RelayEndpoint :=
  [ { name := "Flashbots", url := "https://relay.flashbots.net" },
    { name := "BloXroute Max Profit", url := "https://mev.bloXroute.com" },
    { name := "BloXroute Regulated", url := "https://bloxroute.regulated.ethereum.blocknative.com" },
    { name := "Blocknative", url := "https://api.blocknative.com/v1/auction" },
    { name := "Manifold", url := "https://mainnet-relay.securerpc.com" },
    { name := "BuildAI", url := "https://builder0x69.io" },
    { name := "Titan", url := "https://rpc.titanbuilder.xyz" },
    { name := "Rsync", url := "https://rsync-builder.xyz" },
    { name := "Beaver Build", url := "https://rpc.beaverbuild.org" },
    { name := "Lightspeed", url := "https://rpc.lightspeedbuilder.info" },
    { name := "EdenNetwork", url := "https://api.edennetwork.io/v1/bundle" } ]

/-- The constructor: `new BundleExecutor(_signer, _flashbotsBundleProvider,
_contractAddress, _bundleAPI, _percentageToKeep)`. -/
def constructor (_bundleAPI : String) (_percentageToKeep : AbiValue) : BundleExecutor :=
  { connectionInfo := { url := _bundleAPI }
    relayEndpoints := relayEndpointTable
    nextID := 1
    percentageToKeep := _percentageToKeep }

/-- The function `ethers.utils.hexValue` on a non-negative integer: `0x` followed by the
hexadecimal digits, lower case, without leading zeros (`0x0` for zero). -/
def hexValue (n : Nat) : String := "0x" ++ String.mk (Nat.toDigits 16 n)

/-- The function `ethers.utils.parseEther` on a whole number of ether: the amount in wei. -/
def parseEther (ether : Nat) : Nat := ether * 10 ^ 18

/-- The method `getOptimalGasPrice()`. -/
def getOptimalGasPrice (env : Env) : M Nat :=
  tryCatch
    (do
      let feeData ← call .getFeeData env.getFeeData
      match feeData.maxFeePerGas, feeData.maxPriorityFeePerGas with
      | some maxFeePerGas, some _ => pure maxFeePerGas
      | _, _ => do
        let gasPrice ← call .getGasPrice env.getGasPrice
        pure (gasPrice * 110 / 100))
    (fun _ => call .getGasPrice env.getGasPrice)

/-- The method `bundleWithParams(_blockNumber, _blocksToTry, _bundle)`. -/
def bundleWithParams (_blockNumber _blocksToTry : Nat) (_bundle : List BodyEntry) :
    BundleWithParams :=
  { version := "beta-1"
    inclusion :=
      { block := hexValue _blockNumber
        maxBlock := hexValue (_blockNumber + _blocksToTry) }
    body := _bundle }

/-- The arguments `buildBundles` passes to `populateTransaction.makeFlashLoan`. -/
def flashLoanCall (env : Env) (params : String) (options : TransactionOptions) :
    FlashLoanCall :=
  { assets := [env.mainnetWETHAddress]
    amounts := [parseEther 10]
    params := params
    overrides := options }

/-- The method `buildBundles(_firstPair, _secondPair, _txHash)`. -/
def buildBundles (env : Env) (_firstPair _secondPair _txHash : String) :
    M (BundleWithParams × BundleWithParams) := do
  let blockNumber ← call .getBlockNumber env.getBlockNumber
  let gasPrice ← getOptimalGasPrice env
  let nonce ← call .getTransactionCount env.getTransactionCount
  let bundleTransactionOptions : TransactionOptions :=
    { gasPrice := gasPrice, gasLimit := 400000, nonce := nonce }
  let types := ["address", "address", "uint256"]
  let self ← getSelf
  let valuesFirstTrade := [AbiValue.text _firstPair, AbiValue.text _secondPair, self.percentageToKeep]
  let paramsFirstTrade ← liftExcept (env.encodeParameters types valuesFirstTrade)
  let bundleOneTransaction ←
    call (.makeFlashLoan (flashLoanCall env paramsFirstTrade bundleTransactionOptions))
      (fun t => env.makeFlashLoan t (flashLoanCall env paramsFirstTrade bundleTransactionOptions))
  let signedOne ←
    call (.signTransaction bundleOneTransaction) (fun t => env.signTransaction t bundleOneTransaction)
  let bundleOne := [BodyEntry.hash _txHash, BodyEntry.tx signedOne false]
  let self ← getSelf
  let valuesSecondTrade := [AbiValue.text _secondPair, AbiValue.text _firstPair, self.percentageToKeep]
  let paramsSecondTrade ← liftExcept (env.encodeParameters types valuesSecondTrade)
  let bundleTwoTransaction ←
    call (.makeFlashLoan (flashLoanCall env paramsSecondTrade bundleTransactionOptions))
      (fun t => env.makeFlashLoan t (flashLoanCall env paramsSecondTrade bundleTransactionOptions))
  let signedTwo ←
    call (.signTransaction bundleTwoTransaction) (fun t => env.signTransaction t bundleTwoTransaction)
  let bundleTwo := [BodyEntry.hash _txHash, BodyEntry.tx signedTwo false]
  let bundleOneWithParams := bundleWithParams (blockNumber + 1) 3 bundleOne
  let bundleTwoWithParams := bundleWithParams (blockNumber + 1) 3 bundleTwo
  pure (bundleOneWithParams, bundleTwoWithParams)

/-- The method `prepareRelayRequest(_params, _method)`: the envelope takes `this.nextID`,
which is then incremented. -/
def prepareRelayRequest (_params : List BundleWithParams) (_method : String) :
    M RelayRequest := fun r =>
  (.ok { method := _method, params := _params, id := r.self.nextID, jsonrpc := "2.0" },
   { r with self := { r.self with nextID := r.self.nextID + 1 } })

/-- The settlement of one `request`: the signature header is computed with
`signer.signMessage`, then the request is posted with `fetchJson`; a failure of
either rejects. -/
def signAndPost (env : Env) (_request : RelayRequest) (_relayUrl : String) :
    Except Err Response :=
  match env.signMessage _request with
  | .error e => .error e
  | .ok signature =>
    env.fetchJson
      { url := _relayUrl, signature := env.signerAddress ++ ":" ++ signature } _request

/-- The method `request(_request, _relayUrl)`: sign the request, then post it with the
signature header. -/
def request (env : Env) (_request : RelayRequest) (_relayUrl : String) : M Response :=
  call (.request _request _relayUrl) fun _ => signAndPost env _request _relayUrl

/-- The method `sendBundle(_bundle, _relayUrl)` (every call site passes `_relayUrl`). -/
def sendBundle (env : Env) (_bundle : BundleWithParams) (_relayUrl : String) : M Response := do
  let request ← prepareRelayRequest [_bundle] "mev_sendBundle"
  let response ← BundleExecutor.request env request _relayUrl
  pure response

/-- The body of the loop `for (const relay of ...)` of
`sendBundleToMultipleRelays`: the promises it pushes, in order. -/
def sendToAlternates (env : Env) (_bundleOneWithParams _bundleTwoWithParams : BundleWithParams) :
    List RelayEndpoint → M (List (Except Err (Option Response)))
  | [] => pure []
  | relay :: rest => do
    let one ← start (sendBundle env _bundleOneWithParams relay.url)
    let two ← start (sendBundle env _bundleTwoWithParams relay.url)
    let more ← sendToAlternates env _bundleOneWithParams _bundleTwoWithParams rest
    pure (catchLog one :: catchLog two :: more)

/-- The part of `sendBundleToMultipleRelays` up to the value of
`await Promise.allSettled(relayPromises)`. -/
def relaySettlements (env : Env) (_bundleOneWithParams _bundleTwoWithParams : BundleWithParams) :
    M (List Settlement) := do
  let self ← getSelf
  let one ← start (sendBundle env _bundleOneWithParams self.connectionInfo.url)
  let two ← start (sendBundle env _bundleTwoWithParams self.connectionInfo.url)
  let self ← getSelf
  let alternates ←
    sendToAlternates env _bundleOneWithParams _bundleTwoWithParams (self.relayEndpoints.take 3)
  pure (allSettled (uncaught one :: uncaught two :: alternates))

/-- The method `sendBundleToMultipleRelays(_bundleOneWithParams, _bundleTwoWithParams)`:
the settled array is awaited and dropped; nothing is returned. -/
def sendBundleToMultipleRelays (env : Env)
    (_bundleOneWithParams _bundleTwoWithParams : BundleWithParams) : M Unit := do
  let _ ← relaySettlements env _bundleOneWithParams _bundleTwoWithParams
  pure ()

/-- The method `execute(_firstPair, _secondPair, _txHash)`. -/
def execute (env : Env) (_firstPair _secondPair _txHash : String) : M Unit := do
  let bundles ← buildBundles env _firstPair _secondPair _txHash
  sendBundleToMultipleRelays env bundles.1 bundles.2

end BundleExecutor

namespace BundleExecutor

/-! ## Concrete collaborators and runs used to evaluate the model -/

/-- A provider at block 1000 with transaction count 7 that answers the fee
queries as given, an encoder that lists the values it is handed, a contract
interface and a signer that always answer, and a transport that answers as
`relay` says for the url. -/
def stubEnv (feeData : Except Err FeeData) (gasPrice : Except Err Nat)
    (relay : String → Except Err Response) : Env :=
  { getBlockNumber := fun _ => .ok 1000
    getFeeData := fun _ => feeData
    getGasPrice := fun _ => gasPrice
    getTransactionCount := fun _ => .ok 7
    encodeParameters := fun _ values =>
      .ok (String.intercalate "," (values.map fun v =>
        match v with
        | .text s => s
        | .number n => hexValue n))
    makeFlashLoan := fun _ c =>
      .ok { toAddress := "0xc0", data := c.params, gasPrice := c.overrides.gasPrice,
            gasLimit := c.overrides.gasLimit, nonce := c.overrides.nonce }
    signTransaction := fun _ tx => .ok ("signed(" ++ tx.data ++ ")")
    signerAddress := "0x5e"
    signMessage := fun _ => .ok "sig"
    fetchJson := fun c _ => relay c.url
    mainnetWETHAddress := "0xC02aaA39b223FE8D0A0e5C4F27eAD9083C756Cc2" }

/-- The url given as `_bundleAPI` in the concrete runs. -/
def primaryUrl : String := "https://mev-share.flashbots.net"

/-- Every relay accepts. -/
def relayAllAccept : String → Except Err Response := fun _ => .ok "accepted"

/-- The primary endpoint accepts, every other endpoint fails. -/
def relayOnlyPrimary : String → Except Err Response := fun url =>
  if url = primaryUrl then .ok "accepted" else .error "connection refused"

/-- The primary endpoint fails, every other endpoint accepts. -/
def relayPrimaryDown : String → Except Err Response := fun url =>
  if url = primaryUrl then .error "connection refused" else .ok "accepted"

/-- Fee-market data: maximum fee 30 gwei, priority fee 1.5 gwei. -/
def feeMarket : FeeData :=
  { maxFeePerGas := some 30000000000, maxPriorityFeePerGas := some 1500000000 }

/-- No fee-market data. -/
def feeLegacy : FeeData := { maxFeePerGas := none, maxPriorityFeePerGas := none }

/-- The value of one hexadecimal digit. -/
def hexDigit? (c : Char) : Option Nat :=
  if '0' ≤ c ∧ c ≤ '9' then some (c.toNat - '0'.toNat)
  else if 'a' ≤ c ∧ c ≤ 'f' then some (c.toNat - 'a'.toNat + 10)
  else if 'A' ≤ c ∧ c ≤ 'F' then some (c.toNat - 'A'.toNat + 10)
  else none

/-- Read hexadecimal digits, most significant first, onto `acc`. -/
def parseHexDigits : List Char → Nat → Option Nat
  | [], acc => some acc
  | c :: cs, acc =>
    match hexDigit? c with
    | some d => parseHexDigits cs (16 * acc + d)
    | none => none

/-- Decode a `0x`-prefixed hexadecimal quantity. -/
def parseHex (s : String) : Option Nat :=
  match s.data with
  | '0' :: 'x' :: digits => parseHexDigits digits 0
  | _ => none

/-- The `makeFlashLoan` calls of a history, in order. -/
def flashLoanCalls : List Event → List FlashLoanCall
  | [] => []
  | .makeFlashLoan c :: rest => c :: flashLoanCalls rest
  | _ :: rest => flashLoanCalls rest

/-- The relay calls of a history, in order: the envelope and the url. -/
def relayCalls : List Event → List (RelayRequest × String)
  | [] => []
  | .request req url :: rest => (req, url) :: relayCalls rest
  | _ :: rest => relayCalls rest

/-- The envelope `sendBundle` prepares for a bundle when the counter is `id`. -/
def sendBundleRequest (id : Nat) (bundle : BundleWithParams) : RelayRequest :=
  { method := "mev_sendBundle", params := [bundle], id := id, jsonrpc := "2.0" }

/-- A constructed executor whose counter has reached `n`. -/
def executorAt (_bundleAPI : String) (_percentageToKeep : AbiValue) (n : Nat) : BundleExecutor :=
  { constructor _bundleAPI _percentageToKeep with nextID := n }

/-- An entry of a settled array that stands for a fulfilled promise. -/
def Settlement.isFulfilled : Settlement → Bool
  | .fulfilled _ => true
  | .rejected _ => false

/-- From `r` to `r2` the history was extended, the counter went up by the
number of relay calls added, these calls carry the consecutive ids starting at
the counter of `r`, and no other field of the executor changed. -/
def Advances (r r2 : Run) : Prop :=
  ∃ evs m, r2.trace = r.trace ++ evs ∧
    r2.self = { r.self with nextID := r.self.nextID + m } ∧
    (relayCalls evs).map (fun c => c.1.id) = List.range' r.self.nextID m

/-- A method body that only advances the run, whatever it returns or raises. -/
def Steady {α : Type} (x : M α) : Prop := ∀ r, Advances r (x r).2

/-- A method body that returns a value on every run. -/
def Returns {α : Type} (x : M α) : Prop := ∀ r, ∃ a, (x r).1 = .ok a

/-- Every collaborator call made while bundles are built answers, whatever the
history. -/
def Env.Answers (env : Env) : Prop :=
  (∀ t, ∃ v, env.getBlockNumber t = .ok v) ∧
  (∀ t, ∃ v, env.getFeeData t = .ok v) ∧
  (∀ t, ∃ v, env.getGasPrice t = .ok v) ∧
  (∀ t, ∃ v, env.getTransactionCount t = .ok v) ∧
  (∀ types values, ∃ v, env.encodeParameters types values = .ok v) ∧
  (∀ t c, ∃ v, env.makeFlashLoan t c = .ok v) ∧
  (∀ t tx, ∃ v, env.signTransaction t tx = .ok v)

/-- The eight relay calls that one `sendBundleToMultipleRelays` call makes when
the counter is `k`, in the order in which they are started. -/
def fanOutCalls (k : Nat) (b1 b2 : BundleWithParams) (api : String) :
    List (RelayRequest × String) :=
  [ (sendBundleRequest k b1, api),
    (sendBundleRequest (k + 1) b2, api),
    (sendBundleRequest (k + 2) b1, "https://relay.flashbots.net"),
    (sendBundleRequest (k + 3) b2, "https://relay.flashbots.net"),
    (sendBundleRequest (k + 4) b1, "https://mev.bloXroute.com"),
    (sendBundleRequest (k + 5) b2, "https://mev.bloXroute.com"),
    (sendBundleRequest (k + 6) b1, "https://bloxroute.regulated.ethereum.blocknative.com"),
    (sendBundleRequest (k + 7) b2, "https://bloxroute.regulated.ethereum.blocknative.com") ]

/-- A use of the executor by its owner: one of its methods is called and
awaited. -/
inductive Op where
  | execute (_firstPair _secondPair _txHash : String)
  | buildBundles (_firstPair _secondPair _txHash : String)
  | sendBundleToMultipleRelays (_bundleOneWithParams _bundleTwoWithParams : BundleWithParams)
  | sendBundle (_bundle : BundleWithParams) (_relayUrl : String)
  | getOptimalGasPrice

/-- The run after one use (whatever it returned or raised). -/
def Op.next (env : Env) (op : Op) (r : Run) : Run :=
  match op with
  | .execute a b h => (BundleExecutor.execute env a b h r).2
  | .buildBundles a b h => (BundleExecutor.buildBundles env a b h r).2
  | .sendBundleToMultipleRelays b1 b2 => (BundleExecutor.sendBundleToMultipleRelays env b1 b2 r).2
  | .sendBundle b url => (BundleExecutor.sendBundle env b url r).2
  | .getOptimalGasPrice => (BundleExecutor.getOptimalGasPrice env r).2

/-- The run after a sequence of uses. -/
def runOps (env : Env) (ops : List Op) (r : Run) : Run :=
  ops.foldl (fun acc op => op.next env acc) r

/-- The collaborators of the concrete runs, with fee-market data (30 gwei) and
the given transport. -/
def sampleEnv (relay : String → Except Err Response) : Env :=
  stubEnv (.ok feeMarket) (.ok 20000000001) relay

/-- The first bundle that `buildBundles` returns for the pairs `0xA`, `0xB` and
the hash `0x7a` under `sampleEnv`. -/
def sampleBundleOne : BundleWithParams :=
  { version := "beta-1", inclusion := { block := "0x3e9", maxBlock := "0x3ec" },
    body := [.hash "0x7a", .tx "signed(0xA,0xB,0x50)" false] }

/-- The second bundle of the same call. -/
def sampleBundleTwo : BundleWithParams :=
  { version := "beta-1", inclusion := { block := "0x3e9", maxBlock := "0x3ec" },
    body := [.hash "0x7a", .tx "signed(0xB,0xA,0x50)" false] }

/-- A freshly constructed executor and an empty history. -/
def freshRun : Run := { self := constructor primaryUrl (.number 80), trace := [] }

end BundleExecutor

namespace BundleExecutor

/-! ## Sequencing lemmas -/

@[simp] theorem M.bind_run {α β : Type} (x : M α) (f : α → M β) (r : Run) :
    (x >>= f) r = match x r with
      | (.ok a, r1) => f a r1
      | (.error e, r1) => (.error e, r1) := rfl

@[simp] theorem M.pure_run {α : Type} (a : α) (r : Run) :
    (Pure.pure a : M α) r = (.ok a, r) := rfl

@[simp] theorem call_run {α : Type} (ev : Event) (answer : List Event → Except Err α) (r : Run) :
    call ev answer r = (answer r.trace, { r with trace := r.trace ++ [ev] }) := rfl

@[simp] theorem liftExcept_run {α : Type} (x : Except Err α) (r : Run) :
    liftExcept x r = (x, r) := rfl

@[simp] theorem getSelf_run (r : Run) : getSelf r = (.ok r.self, r) := rfl

/-! ## Gas price -/

/-- The value and the next run of `getOptimalGasPrice`, by cases on what the
provider answers. -/
theorem getOptimalGasPrice_run (env : Env) (r : Run) :
    getOptimalGasPrice env r =
      match env.getFeeData r.trace with
      | .ok fd =>
        match fd.maxFeePerGas, fd.maxPriorityFeePerGas with
        | some maxFee, some _ => (.ok maxFee, { r with trace := r.trace ++ [.getFeeData] })
        | _, _ =>
          match env.getGasPrice (r.trace ++ [.getFeeData]) with
          | .ok p =>
            (.ok (p * 110 / 100), { r with trace := r.trace ++ [.getFeeData] ++ [.getGasPrice] })
          | .error _ =>
            (env.getGasPrice (r.trace ++ [.getFeeData] ++ [.getGasPrice]),
             { r with trace := r.trace ++ [.getFeeData] ++ [.getGasPrice] ++ [.getGasPrice] })
      | .error _ =>
        (env.getGasPrice (r.trace ++ [.getFeeData]),
         { r with trace := r.trace ++ [.getFeeData] ++ [.getGasPrice] }) := by
  unfold getOptimalGasPrice tryCatch
  simp only [M.bind_run, call_run]
  cases hfd : env.getFeeData r.trace with
  | error e => simp
  | ok fd =>
    rcases fd with ⟨maxFee, tip⟩
    cases maxFee <;> cases tip <;> simp <;>
      cases hp : env.getGasPrice (r.trace ++ [.getFeeData]) <;> simp

/-- C5: `getOptimalGasPrice` returns `maxFeePerGas` whenever the fee-data query
succeeds with both the maximum fee and the priority fee present; whenever the
fee-data query fails, the failure is caught and the outcome is that of the raw
legacy gas-price query (the price without buffer, or its failure); and whenever
`getOptimalGasPrice` raises, the last call it made is a legacy gas-price query
that failed with the error raised. -/
theorem getOptimalGasPrice_fee_market_or_fallback (env : Env) (r : Run) :
    (∀ fd maxFee tip, env.getFeeData r.trace = .ok fd → fd.maxFeePerGas = some maxFee →
        fd.maxPriorityFeePerGas = some tip → (getOptimalGasPrice env r).1 = .ok maxFee) ∧
    (∀ e, env.getFeeData r.trace = .error e →
        (getOptimalGasPrice env r).1 = env.getGasPrice (r.trace ++ [.getFeeData])) ∧
    (∀ e, (getOptimalGasPrice env r).1 = .error e →
        ∃ t, (getOptimalGasPrice env r).2.trace = t ++ [.getGasPrice] ∧
          env.getGasPrice t = .error e) := by
  rw [getOptimalGasPrice_run]
  refine ⟨?_, ?_, ?_⟩
  · intro fd maxFee tip hfd hmax htip
    rcases fd with ⟨m, t⟩
    simp only at hmax htip
    subst hmax htip
    simp [hfd]
  · intro e hfd
    simp [hfd]
  · intro e
    cases hfd : env.getFeeData r.trace with
    | error e1 =>
      simp only
      intro h
      exact ⟨_, rfl, h⟩
    | ok fd =>
      rcases fd with ⟨m, t⟩
      cases m <;> cases t <;> simp only <;>
        first
        | (intro h; cases h)
        | (cases hp : env.getGasPrice (r.trace ++ [.getFeeData]) with
           | ok p => simp only; intro h; cases h
           | error e1 => simp only; intro h; exact ⟨_, rfl, h⟩)

/-- C5, evaluated: with fee-market data the maximum fee is returned; with the
fee-data query failing the raw legacy price is returned; with both queries
failing the error of the legacy query is raised. -/
theorem getOptimalGasPrice_fee_market_or_fallback_witness :
    (getOptimalGasPrice (stubEnv (.ok feeMarket) (.ok 20000000001) relayAllAccept) freshRun).1
        = .ok 30000000000 ∧
    (getOptimalGasPrice (stubEnv (.error "timeout") (.ok 20000000001) relayAllAccept) freshRun).1
        = .ok 20000000001 ∧
    (∃ t, (getOptimalGasPrice (stubEnv (.error "timeout") (.error "no network") relayAllAccept)
          freshRun).2.trace = t ++ [.getGasPrice] ∧
        (stubEnv (.error "timeout") (.error "no network") relayAllAccept).getGasPrice t
          = .error "no network") :=
  ⟨(getOptimalGasPrice_fee_market_or_fallback _ freshRun).1 feeMarket _ _ rfl rfl rfl,
   (getOptimalGasPrice_fee_market_or_fallback _ freshRun).2.1 "timeout" rfl,
   (getOptimalGasPrice_fee_market_or_fallback _ freshRun).2.2 "no network" rfl⟩

/-- C6, as amended: when the fee-data query succeeds without fee-market data and
the legacy gas-price query answers `p`, `getOptimalGasPrice` returns the integer
quotient `p * 110 / 100`: the result `g` satisfies `100 * g ≤ 110 * p < 100 * g + 100`,
and `100 * g = 110 * p` exactly when `p` is a multiple of 10. -/
theorem getOptimalGasPrice_legacy_buffer (env : Env) (r : Run) (fd : FeeData) (p : Nat)
    (hfd : env.getFeeData r.trace = .ok fd)
    (habsent : fd.maxFeePerGas = none ∨ fd.maxPriorityFeePerGas = none)
    (hp : env.getGasPrice (r.trace ++ [.getFeeData]) = .ok p) :
    ∃ g, (getOptimalGasPrice env r).1 = .ok g ∧ g = p * 110 / 100 ∧
      100 * g ≤ 110 * p ∧ 110 * p < 100 * g + 100 ∧ (100 * g = 110 * p ↔ 10 ∣ p) := by
  refine ⟨p * 110 / 100, ?_, rfl, by omega, by omega, by omega⟩
  rw [getOptimalGasPrice_run]
  rcases fd with ⟨m, t⟩
  simp only at habsent
  rcases habsent with h | h <;> subst h
  · simp [hfd, hp]
  · cases m <;> simp [hfd, hp]

/-- C6, evaluated at a legacy price of 20 gwei + 1 wei. -/
theorem getOptimalGasPrice_legacy_buffer_witness :
    ∃ g, (getOptimalGasPrice (stubEnv (.ok feeLegacy) (.ok 20000000001) relayAllAccept)
        freshRun).1 = .ok g ∧ g = 20000000001 * 110 / 100 ∧
      100 * g ≤ 110 * 20000000001 ∧ 110 * 20000000001 < 100 * g + 100 ∧
      (100 * g = 110 * 20000000001 ↔ 10 ∣ 20000000001) :=
  getOptimalGasPrice_legacy_buffer _ freshRun feeLegacy 20000000001 rfl (Or.inl rfl) rfl

/-- C6 as stated fails: the fee-data query succeeds without fee-market data, the
legacy price is 20000000001 wei, and the result 22000000001 is not `1.10` times
the price (`100 * 22000000001 ≠ 110 * 20000000001`). -/
theorem getOptimalGasPrice_legacy_not_exact :
    (stubEnv (.ok feeLegacy) (.ok 20000000001) relayAllAccept).getFeeData freshRun.trace
        = .ok feeLegacy ∧
    feeLegacy.maxFeePerGas = none ∧
    (stubEnv (.ok feeLegacy) (.ok 20000000001) relayAllAccept).getGasPrice
        (freshRun.trace ++ [.getFeeData]) = .ok 20000000001 ∧
    (getOptimalGasPrice (stubEnv (.ok feeLegacy) (.ok 20000000001) relayAllAccept) freshRun).1
        = .ok 22000000001 ∧
    100 * 22000000001 ≠ 110 * 20000000001 :=
  ⟨rfl, rfl, rfl, rfl, by decide⟩

/-! ## Hexadecimal quantities -/

theorem hexDigit?_digitChar (d : Nat) (h : d < 16) : hexDigit? (Nat.digitChar d) = some d := by
  interval_cases d <;> rfl

theorem parseHexDigits_toDigitsCore (fuel : Nat) :
    ∀ (n : Nat) (ds : List Char), n < fuel →
      parseHexDigits (Nat.toDigitsCore 16 fuel n ds) 0 = parseHexDigits ds n := by
  induction fuel with
  | zero => intro n ds h; omega
  | succ fuel ih =>
    intro n ds h
    have hd := hexDigit?_digitChar (n % 16) (Nat.mod_lt _ (by decide))
    unfold Nat.toDigitsCore
    by_cases h0 : n / 16 = 0
    · have hn : n % 16 = n := by omega
      simp only [h0, if_true, parseHexDigits, hd]
      rw [hn]
      simp
    · simp only [h0, if_false]
      rw [ih (n / 16) _ (by omega)]
      simp only [parseHexDigits, hd]
      congr 1
      omega

/-- Decoding `hexValue n` gives back `n`. -/
theorem parseHex_hexValue (n : Nat) : parseHex (hexValue n) = some n := by
  have h : (hexValue n).data = '0' :: 'x' :: Nat.toDigits 16 n := by
    simp [hexValue, String.data_append]
  unfold parseHex
  rw [h]
  simp only [Nat.toDigits]
  exact parseHexDigits_toDigitsCore (n + 1) n [] (Nat.lt_succ_self n)

/-- Sample values of `hexValue`: zero is `0x0`, digits are lower case, and there
are no leading zeros. -/
theorem hexValue_samples :
    hexValue 0 = "0x0" ∧ hexValue 1001 = "0x3e9" ∧ hexValue 1004 = "0x3ec" ∧
      hexValue 255 = "0xff" ∧ hexValue 4096 = "0x1000" := by
  decide

/-! ## Inversion of the sequencing operations -/

theorem M.bind_ok_inv {α β : Type} {x : M α} {f : α → M β} {r r2 : Run} {v : β}
    (h : (x >>= f) r = (.ok v, r2)) : ∃ a r1, x r = (.ok a, r1) ∧ f a r1 = (.ok v, r2) := by
  rw [M.bind_run] at h
  rcases hx : x r with ⟨o, r1⟩
  rw [hx] at h
  cases o with
  | error e => simp at h
  | ok a => exact ⟨a, r1, rfl, h⟩

theorem M.pure_ok_inv {α : Type} {a v : α} {r r2 : Run}
    (h : (Pure.pure a : M α) r = (.ok v, r2)) : a = v ∧ r2 = r := by
  rw [M.pure_run] at h
  simp only [Prod.mk.injEq, Except.ok.injEq] at h
  exact ⟨h.1, h.2.symm⟩

theorem call_ok_inv {α : Type} {ev : Event} {answer : List Event → Except Err α} {r r1 : Run}
    {a : α} (h : call ev answer r = (.ok a, r1)) :
    answer r.trace = .ok a ∧ r1 = { r with trace := r.trace ++ [ev] } := by
  rw [call_run] at h
  simp only [Prod.mk.injEq] at h
  exact ⟨h.1, h.2.symm⟩

theorem liftExcept_ok_inv {α : Type} {x : Except Err α} {r r1 : Run} {a : α}
    (h : liftExcept x r = (.ok a, r1)) : x = .ok a ∧ r1 = r := by
  rw [liftExcept_run] at h
  simp only [Prod.mk.injEq] at h
  exact ⟨h.1, h.2.symm⟩

theorem getSelf_ok_inv {r r1 : Run} {a : BundleExecutor}
    (h : getSelf r = (.ok a, r1)) : a = r.self ∧ r1 = r := by
  rw [getSelf_run] at h
  simp only [Prod.mk.injEq, Except.ok.injEq] at h
  exact ⟨h.1.symm, h.2.symm⟩

/-! ## Bundle construction -/

/-- The calls made by `getOptimalGasPrice`: one fee-data query, then at most two
legacy gas-price queries; the executor object is not changed. -/
theorem getOptimalGasPrice_effect (env : Env) (r : Run) :
    ∃ k, k ≤ 2 ∧ (getOptimalGasPrice env r).2 =
      { r with trace := r.trace ++ Event.getFeeData :: List.replicate k Event.getGasPrice } := by
  rw [getOptimalGasPrice_run]
  cases hfd : env.getFeeData r.trace with
  | error e => exact ⟨1, by omega, by simp [List.replicate]⟩
  | ok fd =>
    rcases fd with ⟨m, t⟩
    by_cases hboth : m.isSome ∧ t.isSome
    · obtain ⟨m1, rfl⟩ := Option.isSome_iff_exists.1 hboth.1
      obtain ⟨t1, rfl⟩ := Option.isSome_iff_exists.1 hboth.2
      exact ⟨0, by omega, by simp⟩
    · cases hp : env.getGasPrice (r.trace ++ [.getFeeData]) with
      | ok p =>
        refine ⟨1, by omega, ?_⟩
        cases m <;> cases t <;> simp_all [List.replicate]
      | error e =>
        refine ⟨2, by omega, ?_⟩
        cases m <;> cases t <;> simp_all [List.replicate]

/-- What a successful `buildBundles` call did, step by step. -/
theorem buildBundles_ok_inv (env : Env) (a b txHash : String) (r r2 : Run)
    (b1 b2 : BundleWithParams)
    (h : buildBundles env a b txHash r = (.ok (b1, b2), r2)) :
    ∃ blk g r1 n p1 tx1 s1 p2 tx2 s2,
      env.getBlockNumber r.trace = .ok blk ∧
      getOptimalGasPrice env { r with trace := r.trace ++ [.getBlockNumber] } = (.ok g, r1) ∧
      env.getTransactionCount r1.trace = .ok n ∧
      env.encodeParameters ["address", "address", "uint256"]
        [.text a, .text b, r.self.percentageToKeep] = .ok p1 ∧
      env.makeFlashLoan (r1.trace ++ [.getTransactionCount])
        (flashLoanCall env p1 ⟨g, 400000, n⟩) = .ok tx1 ∧
      env.signTransaction
        (r1.trace ++ [.getTransactionCount] ++ [.makeFlashLoan (flashLoanCall env p1 ⟨g, 400000, n⟩)])
        tx1 = .ok s1 ∧
      env.encodeParameters ["address", "address", "uint256"]
        [.text b, .text a, r.self.percentageToKeep] = .ok p2 ∧
      env.makeFlashLoan
        (r1.trace ++ [.getTransactionCount] ++ [.makeFlashLoan (flashLoanCall env p1 ⟨g, 400000, n⟩)]
          ++ [.signTransaction tx1])
        (flashLoanCall env p2 ⟨g, 400000, n⟩) = .ok tx2 ∧
      env.signTransaction
        (r1.trace ++ [.getTransactionCount] ++ [.makeFlashLoan (flashLoanCall env p1 ⟨g, 400000, n⟩)]
          ++ [.signTransaction tx1] ++ [.makeFlashLoan (flashLoanCall env p2 ⟨g, 400000, n⟩)])
        tx2 = .ok s2 ∧
      b1 = bundleWithParams (blk + 1) 3 [.hash txHash, .tx s1 false] ∧
      b2 = bundleWithParams (blk + 1) 3 [.hash txHash, .tx s2 false] ∧
      r2 = { r with trace := r1.trace ++ [.getTransactionCount]
                ++ [.makeFlashLoan (flashLoanCall env p1 ⟨g, 400000, n⟩)] ++ [.signTransaction tx1]
                ++ [.makeFlashLoan (flashLoanCall env p2 ⟨g, 400000, n⟩)] ++ [.signTransaction tx2] } := by
  unfold buildBundles at h
  obtain ⟨blk, ra, c1, h⟩ := M.bind_ok_inv h
  obtain ⟨h1, rfl⟩ := call_ok_inv c1
  obtain ⟨g, r1, h2, h⟩ := M.bind_ok_inv h
  obtain ⟨k, -, hk⟩ := getOptimalGasPrice_effect env { r with trace := r.trace ++ [.getBlockNumber] }
  have hr1 : r1.self = r.self := by
    have := congrArg Prod.snd h2
    simp only at this
    rw [← this, hk]
  obtain ⟨n, rb, c3, h⟩ := M.bind_ok_inv h
  obtain ⟨h3, rfl⟩ := call_ok_inv c3
  dsimp only at h
  obtain ⟨self1, rc, hs, h⟩ := M.bind_ok_inv h
  obtain ⟨rfl, rfl⟩ := getSelf_ok_inv hs
  obtain ⟨p1, rc, c4, h⟩ := M.bind_ok_inv h
  obtain ⟨h4, rfl⟩ := liftExcept_ok_inv c4
  obtain ⟨tx1, rc, c5, h⟩ := M.bind_ok_inv h
  obtain ⟨h5, rfl⟩ := call_ok_inv c5
  obtain ⟨s1, rc, c6, h⟩ := M.bind_ok_inv h
  obtain ⟨h6, rfl⟩ := call_ok_inv c6
  dsimp only at h
  obtain ⟨self2, rc, hs, h⟩ := M.bind_ok_inv h
  obtain ⟨rfl, rfl⟩ := getSelf_ok_inv hs
  obtain ⟨p2, rc, c7, h⟩ := M.bind_ok_inv h
  obtain ⟨h7, rfl⟩ := liftExcept_ok_inv c7
  obtain ⟨tx2, rc, c8, h⟩ := M.bind_ok_inv h
  obtain ⟨h8, rfl⟩ := call_ok_inv c8
  obtain ⟨s2, rc, c9, h⟩ := M.bind_ok_inv h
  obtain ⟨h9, rfl⟩ := call_ok_inv c9
  dsimp only at h
  obtain ⟨hb, rfl⟩ := M.pure_ok_inv h
  simp only [Prod.mk.injEq] at hb
  obtain ⟨rfl, rfl⟩ := hb
  dsimp only at h4 h5 h6 h7 h8 h9 ⊢
  rw [hr1] at h4 h7
  exact ⟨blk, g, r1, n, p1, tx1, s1, p2, tx2, s2, h1, h2, h3, h4, h5, h6, h7, h8, h9, rfl, rfl,
    by rw [hr1]⟩

/-- The pair form of a successful `buildBundles` call. -/
theorem buildBundles_ok_pair {env : Env} {a b txHash : String} {r : Run}
    {b1 b2 : BundleWithParams} (h : (buildBundles env a b txHash r).1 = .ok (b1, b2)) :
    buildBundles env a b txHash r = (.ok (b1, b2), (buildBundles env a b txHash r).2) := by
  rw [← h]

/-- C1: for every chain head `h` answered by the provider, both bundles returned
by `buildBundles` carry the inclusion window with `block = hexValue (h + 1)` and
`maxBlock = hexValue (h + 1 + 3)`; decoded, `block` is `h + 1` and
`maxBlock - block` is 3. -/
theorem buildBundles_inclusion_window (env : Env) (a b txHash : String) (r : Run)
    (b1 b2 : BundleWithParams) (h : Nat)
    (hhead : env.getBlockNumber r.trace = .ok h)
    (hb : (buildBundles env a b txHash r).1 = .ok (b1, b2)) :
    b1.inclusion = { block := hexValue (h + 1), maxBlock := hexValue (h + 1 + 3) } ∧
    b2.inclusion = b1.inclusion ∧
    ∃ block maxBlock, parseHex b1.inclusion.block = some block ∧
      parseHex b1.inclusion.maxBlock = some maxBlock ∧
      block = h + 1 ∧ maxBlock - block = 3 := by
  obtain ⟨blk, g, r1, n, p1, tx1, s1, p2, tx2, s2, h1, -, -, -, -, -, -, -, -, rfl, rfl, -⟩ :=
    buildBundles_ok_inv env a b txHash r _ b1 b2 (buildBundles_ok_pair hb)
  rw [hhead] at h1
  cases h1
  refine ⟨rfl, rfl, h + 1, h + 1 + 3, ?_, ?_, rfl, by omega⟩
  · exact parseHex_hexValue _
  · exact parseHex_hexValue _

/-- C1, evaluated at chain head 1000: the window of both bundles is
`{block: 1001, maxBlock: 1004}`, that is `0x3e9` and `0x3ec`. -/
theorem buildBundles_inclusion_window_witness :
    (stubEnv (.ok feeMarket) (.ok 20000000001) relayAllAccept).getBlockNumber freshRun.trace
      = .ok 1000 ∧
    (buildBundles (stubEnv (.ok feeMarket) (.ok 20000000001) relayAllAccept)
        "0xA" "0xB" "0x7a" freshRun).1
      = .ok (bundleWithParams 1001 3 [.hash "0x7a", .tx "signed(0xA,0xB,0x50)" false],
             bundleWithParams 1001 3 [.hash "0x7a", .tx "signed(0xB,0xA,0x50)" false]) ∧
    (bundleWithParams 1001 3 [.hash "0x7a", .tx "signed(0xA,0xB,0x50)" false]).inclusion
      = { block := "0x3e9", maxBlock := "0x3ec" } ∧
    (bundleWithParams 1001 3 [.hash "0x7a", .tx "signed(0xB,0xA,0x50)" false]).inclusion
      = { block := "0x3e9", maxBlock := "0x3ec" } ∧
    ∃ block maxBlock, parseHex "0x3e9" = some block ∧ parseHex "0x3ec" = some maxBlock ∧
      block = 1000 + 1 ∧ maxBlock - block = 3 :=
  have h := buildBundles_inclusion_window (stubEnv (.ok feeMarket) (.ok 20000000001) relayAllAccept)
    "0xA" "0xB" "0x7a" freshRun
    (bundleWithParams 1001 3 [.hash "0x7a", .tx "signed(0xA,0xB,0x50)" false])
    (bundleWithParams 1001 3 [.hash "0x7a", .tx "signed(0xB,0xA,0x50)" false])
    1000 rfl rfl
  ⟨rfl, rfl, h.1, h.2.1.trans h.1, h.2.2⟩

/-- C2: the transaction signed into the first bundle returned by `buildBundles`
is populated with the `(address, address, uint256)` encoding of
`(pairA, pairB, pct)` and the one signed into the second bundle with the
encoding of `(pairB, pairA, pct)`, under the same transaction options: the two
value tuples are direction-swaps of each other with the same `pct`. -/
theorem buildBundles_direction_swap (env : Env) (pairA pairB txHash : String) (r : Run)
    (b1 b2 : BundleWithParams)
    (hb : (buildBundles env pairA pairB txHash r).1 = .ok (b1, b2)) :
    ∃ p1 p2 options t1 t2 u1 u2 tx1 tx2 s1 s2,
      env.encodeParameters ["address", "address", "uint256"]
        [.text pairA, .text pairB, r.self.percentageToKeep] = .ok p1 ∧
      env.makeFlashLoan t1 (flashLoanCall env p1 options) = .ok tx1 ∧
      env.signTransaction u1 tx1 = .ok s1 ∧
      b1.body = [.hash txHash, .tx s1 false] ∧
      env.encodeParameters ["address", "address", "uint256"]
        [.text pairB, .text pairA, r.self.percentageToKeep] = .ok p2 ∧
      env.makeFlashLoan t2 (flashLoanCall env p2 options) = .ok tx2 ∧
      env.signTransaction u2 tx2 = .ok s2 ∧
      b2.body = [.hash txHash, .tx s2 false] := by
  obtain ⟨blk, g, r1, n, p1, tx1, s1, p2, tx2, s2, -, -, -, h4, h5, h6, h7, h8, h9, rfl, rfl, -⟩ :=
    buildBundles_ok_inv env pairA pairB txHash r _ b1 b2 (buildBundles_ok_pair hb)
  exact ⟨p1, p2, _, _, _, _, _, tx1, tx2, s1, s2, h4, h5, h6, rfl, h7, h8, h9, rfl⟩

/-- C2, evaluated: with an encoder that lists the values it is handed, the first
bundle carries the signature over `(0xA, 0xB, 0x50)` and the second the one over
`(0xB, 0xA, 0x50)`. -/
theorem buildBundles_direction_swap_witness :
    (buildBundles (stubEnv (.ok feeMarket) (.ok 20000000001) relayAllAccept)
        "0xA" "0xB" "0x7a" freshRun).1
      = .ok (bundleWithParams 1001 3 [.hash "0x7a", .tx "signed(0xA,0xB,0x50)" false],
             bundleWithParams 1001 3 [.hash "0x7a", .tx "signed(0xB,0xA,0x50)" false]) ∧
    ∃ p1 p2 options t1 t2 u1 u2 tx1 tx2 s1 s2,
      (stubEnv (.ok feeMarket) (.ok 20000000001) relayAllAccept).encodeParameters
        ["address", "address", "uint256"] [.text "0xA", .text "0xB", .number 80] = .ok p1 ∧
      (stubEnv (.ok feeMarket) (.ok 20000000001) relayAllAccept).makeFlashLoan t1
        (flashLoanCall (stubEnv (.ok feeMarket) (.ok 20000000001) relayAllAccept) p1 options)
        = .ok tx1 ∧
      (stubEnv (.ok feeMarket) (.ok 20000000001) relayAllAccept).signTransaction u1 tx1
        = .ok s1 ∧
      [BodyEntry.hash "0x7a", BodyEntry.tx "signed(0xA,0xB,0x50)" false]
        = [.hash "0x7a", .tx s1 false] ∧
      (stubEnv (.ok feeMarket) (.ok 20000000001) relayAllAccept).encodeParameters
        ["address", "address", "uint256"] [.text "0xB", .text "0xA", .number 80] = .ok p2 ∧
      (stubEnv (.ok feeMarket) (.ok 20000000001) relayAllAccept).makeFlashLoan t2
        (flashLoanCall (stubEnv (.ok feeMarket) (.ok 20000000001) relayAllAccept) p2 options)
        = .ok tx2 ∧
      (stubEnv (.ok feeMarket) (.ok 20000000001) relayAllAccept).signTransaction u2 tx2
        = .ok s2 ∧
      [BodyEntry.hash "0x7a", BodyEntry.tx "signed(0xB,0xA,0x50)" false]
        = [.hash "0x7a", .tx s2 false] :=
  ⟨rfl, buildBundles_direction_swap (stubEnv (.ok feeMarket) (.ok 20000000001) relayAllAccept)
    "0xA" "0xB" "0x7a" freshRun
    (bundleWithParams 1001 3 [.hash "0x7a", .tx "signed(0xA,0xB,0x50)" false])
    (bundleWithParams 1001 3 [.hash "0x7a", .tx "signed(0xB,0xA,0x50)" false]) rfl⟩

/-- C3: each of the two bundles returned by `buildBundles` has version `beta-1`
and a body of exactly two entries in fixed order: first `{hash: txHash}` with
the hash passed in, then `{tx: <signed transaction>, canRevert: false}` where
the transaction is one the signer returned. -/
theorem buildBundles_body_shape (env : Env) (pairA pairB txHash : String) (r : Run)
    (b1 b2 : BundleWithParams)
    (hb : (buildBundles env pairA pairB txHash r).1 = .ok (b1, b2)) :
    b1.version = "beta-1" ∧ b2.version = "beta-1" ∧
    b1.body.length = 2 ∧ b2.body.length = 2 ∧
    ∃ u1 u2 tx1 tx2 s1 s2,
      env.signTransaction u1 tx1 = .ok s1 ∧ env.signTransaction u2 tx2 = .ok s2 ∧
      b1.body = [.hash txHash, .tx s1 false] ∧
      b2.body = [.hash txHash, .tx s2 false] := by
  obtain ⟨blk, g, r1, n, p1, tx1, s1, p2, tx2, s2, -, -, -, -, -, h6, -, -, h9, rfl, rfl, -⟩ :=
    buildBundles_ok_inv env pairA pairB txHash r _ b1 b2 (buildBundles_ok_pair hb)
  exact ⟨rfl, rfl, rfl, rfl, _, _, tx1, tx2, s1, s2, h6, h9, rfl, rfl⟩

/-- C3, evaluated on a concrete run. -/
theorem buildBundles_body_shape_witness :
    (buildBundles (stubEnv (.ok feeMarket) (.ok 20000000001) relayAllAccept)
        "0xA" "0xB" "0x7a" freshRun).1
      = .ok ({ version := "beta-1", inclusion := { block := "0x3e9", maxBlock := "0x3ec" },
               body := [.hash "0x7a", .tx "signed(0xA,0xB,0x50)" false] },
             { version := "beta-1", inclusion := { block := "0x3e9", maxBlock := "0x3ec" },
               body := [.hash "0x7a", .tx "signed(0xB,0xA,0x50)" false] }) ∧
    ("beta-1" = "beta-1" ∧ "beta-1" = "beta-1" ∧
      [BodyEntry.hash "0x7a", BodyEntry.tx "signed(0xA,0xB,0x50)" false].length = 2 ∧
      [BodyEntry.hash "0x7a", BodyEntry.tx "signed(0xB,0xA,0x50)" false].length = 2 ∧
      ∃ u1 u2 tx1 tx2 s1 s2,
        (stubEnv (.ok feeMarket) (.ok 20000000001) relayAllAccept).signTransaction u1 tx1
          = .ok s1 ∧
        (stubEnv (.ok feeMarket) (.ok 20000000001) relayAllAccept).signTransaction u2 tx2
          = .ok s2 ∧
        [BodyEntry.hash "0x7a", BodyEntry.tx "signed(0xA,0xB,0x50)" false]
          = [.hash "0x7a", .tx s1 false] ∧
        [BodyEntry.hash "0x7a", BodyEntry.tx "signed(0xB,0xA,0x50)" false]
          = [.hash "0x7a", .tx s2 false]) :=
  ⟨rfl, buildBundles_body_shape (stubEnv (.ok feeMarket) (.ok 20000000001) relayAllAccept)
    "0xA" "0xB" "0x7a" freshRun
    { version := "beta-1", inclusion := { block := "0x3e9", maxBlock := "0x3ec" },
      body := [.hash "0x7a", .tx "signed(0xA,0xB,0x50)" false] }
    { version := "beta-1", inclusion := { block := "0x3e9", maxBlock := "0x3ec" },
      body := [.hash "0x7a", .tx "signed(0xB,0xA,0x50)" false] } rfl⟩

/-! ## Calls recorded in a history -/

theorem flashLoanCalls_append (xs ys : List Event) :
    flashLoanCalls (xs ++ ys) = flashLoanCalls xs ++ flashLoanCalls ys := by
  induction xs with
  | nil => rfl
  | cons x xs ih => cases x <;> simp [flashLoanCalls, ih]

theorem flashLoanCalls_replicate_getGasPrice (k : Nat) :
    flashLoanCalls (List.replicate k Event.getGasPrice) = [] := by
  induction k with
  | zero => rfl
  | succ k ih => simp [List.replicate, flashLoanCalls, ih]

theorem relayCalls_append (xs ys : List Event) :
    relayCalls (xs ++ ys) = relayCalls xs ++ relayCalls ys := by
  induction xs with
  | nil => rfl
  | cons x xs ih => cases x <;> simp [relayCalls, ih]

theorem relayCalls_replicate_getGasPrice (k : Nat) :
    relayCalls (List.replicate k Event.getGasPrice) = [] := by
  induction k with
  | zero => rfl
  | succ k ih => simp [List.replicate, relayCalls, ih]

/-- The calls a successful `buildBundles` appends to the history. -/
theorem buildBundles_ok_trace (env : Env) (a b txHash : String) (r : Run)
    (b1 b2 : BundleWithParams)
    (hb : (buildBundles env a b txHash r).1 = .ok (b1, b2)) :
    ∃ k g n p1 p2 tx1 tx2,
      (getOptimalGasPrice env { r with trace := r.trace ++ [.getBlockNumber] }).1 = .ok g ∧
      env.getTransactionCount
        (r.trace ++ [.getBlockNumber] ++ .getFeeData :: List.replicate k .getGasPrice) = .ok n ∧
      env.encodeParameters ["address", "address", "uint256"]
        [.text a, .text b, r.self.percentageToKeep] = .ok p1 ∧
      env.encodeParameters ["address", "address", "uint256"]
        [.text b, .text a, r.self.percentageToKeep] = .ok p2 ∧
      (buildBundles env a b txHash r).2 =
        { r with trace := r.trace ++
            ([.getBlockNumber, .getFeeData] ++ List.replicate k .getGasPrice ++
              [.getTransactionCount,
               .makeFlashLoan (flashLoanCall env p1 ⟨g, 400000, n⟩), .signTransaction tx1,
               .makeFlashLoan (flashLoanCall env p2 ⟨g, 400000, n⟩), .signTransaction tx2]) } := by
  obtain ⟨blk, g, r1, n, p1, tx1, s1, p2, tx2, s2, -, h2, h3, h4, -, -, h7, -, -, -, -, hr⟩ :=
    buildBundles_ok_inv env a b txHash r _ b1 b2 (buildBundles_ok_pair hb)
  obtain ⟨k, -, hk⟩ := getOptimalGasPrice_effect env { r with trace := r.trace ++ [.getBlockNumber] }
  rw [h2] at hk
  simp only at hk
  subst hk
  refine ⟨k, g, n, p1, p2, tx1, tx2, by rw [h2], h3, h4, h7, ?_⟩
  rw [hr]
  simp

/-- C9: in one successful `buildBundles` call the transaction count is read
exactly once and `getOptimalGasPrice` is called once (one fee-data query); the
two `makeFlashLoan` populations receive the same options (the gas price of that
call, gas limit 400000, the nonce that was read, not incremented), the same
loan asset `config.mainnetWETHAddress` and the same loan amount of 10 ether, and
differ only in the encoded parameters. -/
theorem buildBundles_shared_options (env : Env) (pairA pairB txHash : String) (r : Run)
    (b1 b2 : BundleWithParams)
    (hb : (buildBundles env pairA pairB txHash r).1 = .ok (b1, b2)) :
    ∃ evs before after g n p1 p2,
      (buildBundles env pairA pairB txHash r).2.trace = r.trace ++ evs ∧
      evs.count .getTransactionCount = 1 ∧
      evs = before ++ .getTransactionCount :: after ∧
      env.getTransactionCount (r.trace ++ before) = .ok n ∧
      evs.count .getFeeData = 1 ∧
      (getOptimalGasPrice env { r with trace := r.trace ++ [.getBlockNumber] }).1 = .ok g ∧
      env.encodeParameters ["address", "address", "uint256"]
        [.text pairA, .text pairB, r.self.percentageToKeep] = .ok p1 ∧
      env.encodeParameters ["address", "address", "uint256"]
        [.text pairB, .text pairA, r.self.percentageToKeep] = .ok p2 ∧
      flashLoanCalls evs =
        [ { assets := [env.mainnetWETHAddress], amounts := [10000000000000000000], params := p1,
            overrides := { gasPrice := g, gasLimit := 400000, nonce := n } },
          { assets := [env.mainnetWETHAddress], amounts := [10000000000000000000], params := p2,
            overrides := { gasPrice := g, gasLimit := 400000, nonce := n } } ] := by
  obtain ⟨k, g, n, p1, p2, tx1, tx2, hg, hn, hp1, hp2, hr⟩ :=
    buildBundles_ok_trace env pairA pairB txHash r b1 b2 hb
  refine ⟨_, [.getBlockNumber, .getFeeData] ++ List.replicate k .getGasPrice,
    [.makeFlashLoan (flashLoanCall env p1 ⟨g, 400000, n⟩), .signTransaction tx1,
     .makeFlashLoan (flashLoanCall env p2 ⟨g, 400000, n⟩), .signTransaction tx2],
    g, n, p1, p2, by rw [hr], ?_, ?_, ?_, ?_, hg, hp1, hp2, ?_⟩
  · simp [List.count_append, List.count_cons, List.count_replicate]
  · simp
  · simpa using hn
  · simp [List.count_append, List.count_cons, List.count_replicate]
  · simp [flashLoanCalls_append, flashLoanCalls_replicate_getGasPrice, flashLoanCalls,
      flashLoanCall, parseEther]

/-- C9, evaluated on a concrete run: the nonce 7 and the gas price 30 gwei are
given to both populations. -/
theorem buildBundles_shared_options_witness :
    (buildBundles (sampleEnv relayAllAccept) "0xA" "0xB" "0x7a" freshRun).1
      = .ok (sampleBundleOne, sampleBundleTwo) ∧
    flashLoanCalls (buildBundles (sampleEnv relayAllAccept) "0xA" "0xB" "0x7a" freshRun).2.trace =
      [ { assets := ["0xC02aaA39b223FE8D0A0e5C4F27eAD9083C756Cc2"],
          amounts := [10000000000000000000], params := "0xA,0xB,0x50",
          overrides := { gasPrice := 30000000000, gasLimit := 400000, nonce := 7 } },
        { assets := ["0xC02aaA39b223FE8D0A0e5C4F27eAD9083C756Cc2"],
          amounts := [10000000000000000000], params := "0xB,0xA,0x50",
          overrides := { gasPrice := 30000000000, gasLimit := 400000, nonce := 7 } } ] ∧
    ∃ evs before after g n p1 p2,
      (buildBundles (sampleEnv relayAllAccept) "0xA" "0xB" "0x7a" freshRun).2.trace
        = freshRun.trace ++ evs ∧
      evs.count .getTransactionCount = 1 ∧
      evs = before ++ .getTransactionCount :: after ∧
      (sampleEnv relayAllAccept).getTransactionCount (freshRun.trace ++ before) = .ok n ∧
      evs.count .getFeeData = 1 ∧
      (getOptimalGasPrice (sampleEnv relayAllAccept)
        { freshRun with trace := freshRun.trace ++ [.getBlockNumber] }).1 = .ok g ∧
      (sampleEnv relayAllAccept).encodeParameters
        ["address", "address", "uint256"] [.text "0xA", .text "0xB", .number 80] = .ok p1 ∧
      (sampleEnv relayAllAccept).encodeParameters
        ["address", "address", "uint256"] [.text "0xB", .text "0xA", .number 80] = .ok p2 ∧
      flashLoanCalls evs =
        [ { assets := ["0xC02aaA39b223FE8D0A0e5C4F27eAD9083C756Cc2"],
            amounts := [10000000000000000000], params := p1,
            overrides := { gasPrice := g, gasLimit := 400000, nonce := n } },
          { assets := ["0xC02aaA39b223FE8D0A0e5C4F27eAD9083C756Cc2"],
            amounts := [10000000000000000000], params := p2,
            overrides := { gasPrice := g, gasLimit := 400000, nonce := n } } ] :=
  ⟨rfl, rfl, buildBundles_shared_options (sampleEnv relayAllAccept) "0xA" "0xB" "0x7a" freshRun
    sampleBundleOne sampleBundleTwo rfl⟩

/-! ## Bundle construction returns when the collaborators answer -/

theorem returns_bind {α β : Type} {x : M α} {f : α → M β} (hx : Returns x)
    (hf : ∀ a, Returns (f a)) : Returns (x >>= f) := by
  intro r
  rw [M.bind_run]
  obtain ⟨a, ha⟩ := hx r
  rcases hxr : x r with ⟨o, r1⟩
  rw [hxr] at ha
  simp only at ha
  subst ha
  exact hf a r1

theorem returns_pure {α : Type} (a : α) : Returns (Pure.pure a : M α) :=
  fun _ => ⟨a, rfl⟩

theorem returns_getSelf : Returns getSelf := fun r => ⟨r.self, rfl⟩

theorem returns_liftExcept {α : Type} {x : Except Err α} (hx : ∃ v, x = .ok v) :
    Returns (liftExcept x) :=
  fun _ => hx

theorem returns_call {α : Type} (ev : Event) {answer : List Event → Except Err α}
    (h : ∀ t, ∃ v, answer t = .ok v) : Returns (call ev answer) :=
  fun r => h r.trace

theorem returns_tryCatch {α : Type} {body : M α} {handler : Err → M α}
    (hh : ∀ e, Returns (handler e)) : Returns (tryCatch body handler) := by
  intro r
  unfold tryCatch
  rcases body r with ⟨o, r1⟩
  cases o with
  | error e => exact hh e r1
  | ok a => exact ⟨a, rfl⟩

/-- If the legacy gas-price query answers, so does `getOptimalGasPrice`, whatever
the fee-data query does. -/
theorem getOptimalGasPrice_returns (env : Env) (h : ∀ t, ∃ v, env.getGasPrice t = .ok v) :
    Returns (getOptimalGasPrice env) :=
  returns_tryCatch fun _ => returns_call _ h

/-- If every collaborator answers, `buildBundles` returns two bundles. -/
theorem buildBundles_returns (env : Env) (h : env.Answers) (a b txHash : String) :
    Returns (buildBundles env a b txHash) := by
  obtain ⟨h1, -, h3, h4, h5, h6, h7⟩ := h
  unfold buildBundles
  refine returns_bind (returns_call _ h1) fun _ => ?_
  refine returns_bind (getOptimalGasPrice_returns env h3) fun _ => ?_
  refine returns_bind (returns_call _ h4) fun _ => ?_
  refine returns_bind returns_getSelf fun _ => ?_
  refine returns_bind (returns_liftExcept (h5 _ _)) fun _ => ?_
  refine returns_bind (returns_call _ fun t => h6 t _) fun _ => ?_
  refine returns_bind (returns_call _ fun t => h7 t _) fun _ => ?_
  refine returns_bind returns_getSelf fun _ => ?_
  refine returns_bind (returns_liftExcept (h5 _ _)) fun _ => ?_
  refine returns_bind (returns_call _ fun t => h6 t _) fun _ => ?_
  refine returns_bind (returns_call _ fun t => h7 t _) fun _ => ?_
  exact returns_pure _

/-! ## Relay calls -/

/-- One `sendBundle` call: the envelope takes the current counter, the counter
goes up by one, the request is recorded, and the promise settles as the relay
answers. -/
theorem sendBundle_run (env : Env) (bundle : BundleWithParams) (url : String) (r : Run) :
    sendBundle env bundle url r =
      (signAndPost env (sendBundleRequest r.self.nextID bundle) url,
       { self := { r.self with nextID := r.self.nextID + 1 },
         trace := r.trace ++ [.request (sendBundleRequest r.self.nextID bundle) url] }) := by
  unfold sendBundle
  simp only [M.bind_run, prepareRelayRequest, request, call_run, sendBundleRequest, M.pure_run]
  cases signAndPost env
    { method := "mev_sendBundle", params := [bundle], id := r.self.nextID, jsonrpc := "2.0" } url <;>
    rfl

theorem start_run {α : Type} (x : M α) (r : Run) :
    start x r = ((.ok (x r).1 : Except Err (Except Err α)), (x r).2) := rfl

theorem Advances.refl (r : Run) : Advances r r :=
  ⟨[], 0, by simp, rfl, rfl⟩

theorem Advances.trans {r r1 r2 : Run} (h1 : Advances r r1) (h2 : Advances r1 r2) :
    Advances r r2 := by
  obtain ⟨evs1, m1, ht1, hs1, hi1⟩ := h1
  obtain ⟨evs2, m2, ht2, hs2, hi2⟩ := h2
  refine ⟨evs1 ++ evs2, m1 + m2, ?_, ?_, ?_⟩
  · rw [ht2, ht1, List.append_assoc]
  · rw [hs2, hs1]
    simp [Nat.add_assoc]
  · rw [relayCalls_append, List.map_append, hi1, hi2, hs1]
    simp only
    rw [Nat.add_comm m1 m2, ← List.range'_append_1]

theorem steady_bind {α β : Type} {x : M α} {f : α → M β} (hx : Steady x)
    (hf : ∀ a, Steady (f a)) : Steady (x >>= f) := by
  intro r
  rw [M.bind_run]
  have h1 := hx r
  rcases hxr : x r with ⟨o, r1⟩
  rw [hxr] at h1
  cases o with
  | error e => exact h1
  | ok a => exact h1.trans (hf a r1)

theorem steady_pure {α : Type} (a : α) : Steady (Pure.pure a : M α) :=
  fun r => Advances.refl r

theorem steady_getSelf : Steady getSelf := fun r => Advances.refl r

theorem steady_liftExcept {α : Type} (x : Except Err α) : Steady (liftExcept x) :=
  fun r => Advances.refl r

theorem steady_call {α : Type} (ev : Event) (answer : List Event → Except Err α)
    (hev : relayCalls [ev] = []) : Steady (call ev answer) :=
  fun r => ⟨[ev], 0, rfl, rfl, by rw [hev]; rfl⟩

theorem steady_tryCatch {α : Type} {body : M α} {handler : Err → M α} (hb : Steady body)
    (hh : ∀ e, Steady (handler e)) : Steady (tryCatch body handler) := by
  intro r
  unfold tryCatch
  have h1 := hb r
  rcases hbr : body r with ⟨o, r1⟩
  rw [hbr] at h1
  cases o with
  | error e => exact h1.trans (hh e r1)
  | ok a => exact h1

theorem steady_start {α : Type} {x : M α} (hx : Steady x) : Steady (start x) :=
  fun r => hx r

theorem steady_sendBundle (env : Env) (bundle : BundleWithParams) (url : String) :
    Steady (sendBundle env bundle url) := by
  intro r
  rw [sendBundle_run]
  exact ⟨[.request (sendBundleRequest r.self.nextID bundle) url], 1, rfl, rfl, rfl⟩

theorem steady_getOptimalGasPrice (env : Env) : Steady (getOptimalGasPrice env) := by
  unfold getOptimalGasPrice
  refine steady_tryCatch (steady_bind (steady_call _ _ rfl) fun fd => ?_)
    (fun _ => steady_call _ _ rfl)
  rcases fd with ⟨m, t⟩
  cases m <;> cases t <;>
    first
    | exact steady_pure _
    | exact steady_bind (steady_call _ _ rfl) fun _ => steady_pure _

theorem steady_buildBundles (env : Env) (a b txHash : String) :
    Steady (buildBundles env a b txHash) := by
  unfold buildBundles
  refine steady_bind (steady_call _ _ rfl) fun _ => ?_
  refine steady_bind (steady_getOptimalGasPrice env) fun _ => ?_
  refine steady_bind (steady_call _ _ rfl) fun _ => ?_
  refine steady_bind steady_getSelf fun _ => ?_
  refine steady_bind (steady_liftExcept _) fun _ => ?_
  refine steady_bind (steady_call _ _ rfl) fun _ => ?_
  refine steady_bind (steady_call _ _ rfl) fun _ => ?_
  refine steady_bind steady_getSelf fun _ => ?_
  refine steady_bind (steady_liftExcept _) fun _ => ?_
  refine steady_bind (steady_call _ _ rfl) fun _ => ?_
  refine steady_bind (steady_call _ _ rfl) fun _ => ?_
  exact steady_pure _

theorem steady_sendToAlternates (env : Env) (b1 b2 : BundleWithParams) :
    ∀ relays : List RelayEndpoint, Steady (sendToAlternates env b1 b2 relays)
  | [] => steady_pure _
  | relay :: rest => by
    unfold sendToAlternates
    refine steady_bind (steady_start (steady_sendBundle env b1 relay.url)) fun _ => ?_
    refine steady_bind (steady_start (steady_sendBundle env b2 relay.url)) fun _ => ?_
    refine steady_bind (steady_sendToAlternates env b1 b2 rest) fun _ => ?_
    exact steady_pure _

theorem steady_relaySettlements (env : Env) (b1 b2 : BundleWithParams) :
    Steady (relaySettlements env b1 b2) := by
  unfold relaySettlements
  refine steady_bind steady_getSelf fun _ => ?_
  refine steady_bind (steady_start (steady_sendBundle env b1 _)) fun _ => ?_
  refine steady_bind (steady_start (steady_sendBundle env b2 _)) fun _ => ?_
  refine steady_bind steady_getSelf fun _ => ?_
  refine steady_bind (steady_sendToAlternates env b1 b2 _) fun _ => ?_
  exact steady_pure _

theorem steady_sendBundleToMultipleRelays (env : Env) (b1 b2 : BundleWithParams) :
    Steady (sendBundleToMultipleRelays env b1 b2) := by
  unfold sendBundleToMultipleRelays
  exact steady_bind (steady_relaySettlements env b1 b2) fun _ => steady_pure _

theorem steady_execute (env : Env) (a b txHash : String) : Steady (execute env a b txHash) := by
  unfold execute
  exact steady_bind (steady_buildBundles env a b txHash) fun _ =>
    steady_sendBundleToMultipleRelays env _ _

theorem Op.next_advances (env : Env) (op : Op) (r : Run) : Advances r (op.next env r) := by
  cases op with
  | execute a b h => exact steady_execute env a b h r
  | buildBundles a b h => exact steady_buildBundles env a b h r
  | sendBundleToMultipleRelays b1 b2 => exact steady_sendBundleToMultipleRelays env b1 b2 r
  | sendBundle b url => exact steady_sendBundle env b url r
  | getOptimalGasPrice => exact steady_getOptimalGasPrice env r

theorem runOps_advances (env : Env) (ops : List Op) : ∀ r, Advances r (runOps env ops r) := by
  induction ops with
  | nil => intro r; exact Advances.refl r
  | cons op ops ih =>
    intro r
    exact (Op.next_advances env op r).trans (ih (op.next env r))

/-! ## Fan-out -/

/-- One `sendBundleToMultipleRelays` call on a constructed executor, up to the
settled array: the eight promises, the counter and the history. -/
theorem relaySettlements_run (env : Env) (b1 b2 : BundleWithParams) (api : String)
    (pct : AbiValue) (n : Nat) (t : List Event) :
    relaySettlements env b1 b2 ⟨executorAt api pct n, t⟩ =
      (.ok (allSettled
        [ uncaught (signAndPost env (sendBundleRequest n b1) api),
          uncaught (signAndPost env (sendBundleRequest (n + 1) b2) api),
          catchLog (signAndPost env (sendBundleRequest (n + 2) b1) "https://relay.flashbots.net"),
          catchLog (signAndPost env (sendBundleRequest (n + 3) b2) "https://relay.flashbots.net"),
          catchLog (signAndPost env (sendBundleRequest (n + 4) b1) "https://mev.bloXroute.com"),
          catchLog (signAndPost env (sendBundleRequest (n + 5) b2) "https://mev.bloXroute.com"),
          catchLog (signAndPost env (sendBundleRequest (n + 6) b1)
            "https://bloxroute.regulated.ethereum.blocknative.com"),
          catchLog (signAndPost env (sendBundleRequest (n + 7) b2)
            "https://bloxroute.regulated.ethereum.blocknative.com") ]),
       ⟨executorAt api pct (n + 8),
        t ++ [ .request (sendBundleRequest n b1) api,
               .request (sendBundleRequest (n + 1) b2) api,
               .request (sendBundleRequest (n + 2) b1) "https://relay.flashbots.net",
               .request (sendBundleRequest (n + 3) b2) "https://relay.flashbots.net",
               .request (sendBundleRequest (n + 4) b1) "https://mev.bloXroute.com",
               .request (sendBundleRequest (n + 5) b2) "https://mev.bloXroute.com",
               .request (sendBundleRequest (n + 6) b1)
                 "https://bloxroute.regulated.ethereum.blocknative.com",
               .request (sendBundleRequest (n + 7) b2)
                 "https://bloxroute.regulated.ethereum.blocknative.com" ]⟩) := by
  simp [relaySettlements, sendToAlternates, start_run, sendBundle_run, executorAt,
    BundleExecutor.constructor, relayEndpointTable, Nat.add_assoc]

theorem sendToAlternates_ok (env : Env) (b1 b2 : BundleWithParams) :
    ∀ (relays : List RelayEndpoint) (r : Run),
      ∃ ps, (sendToAlternates env b1 b2 relays r).1 = .ok ps
  | [], r => ⟨[], rfl⟩
  | relay :: rest, r => by
    unfold sendToAlternates
    simp only [M.bind_run, start_run, M.pure_run]
    obtain ⟨ps, hps⟩ := sendToAlternates_ok env b1 b2 rest
      (sendBundle env b2 relay.url (sendBundle env b1 relay.url r).2).2
    rcases hrest : sendToAlternates env b1 b2 rest
      (sendBundle env b2 relay.url (sendBundle env b1 relay.url r).2).2 with ⟨o, r3⟩
    rw [hrest] at hps
    simp only at hps
    subst hps
    exact ⟨_, rfl⟩

/-- A call of `sendBundleToMultipleRelays` never raises, on any run. -/
theorem sendBundleToMultipleRelays_ok (env : Env) (b1 b2 : BundleWithParams) (r : Run) :
    (sendBundleToMultipleRelays env b1 b2 r).1 = .ok () := by
  unfold sendBundleToMultipleRelays relaySettlements
  simp only [M.bind_run, start_run, M.pure_run, getSelf_run]
  obtain ⟨ps, hps⟩ := sendToAlternates_ok env b1 b2 (List.take 3 r.self.relayEndpoints)
    (sendBundle env b2 r.self.connectionInfo.url
      (sendBundle env b1 r.self.connectionInfo.url r).2).2
  have hself : (sendBundle env b2 r.self.connectionInfo.url
      (sendBundle env b1 r.self.connectionInfo.url r).2).2.self.relayEndpoints
        = r.self.relayEndpoints := by
    simp [sendBundle_run]
  rw [hself]
  rcases hrest : sendToAlternates env b1 b2 (List.take 3 r.self.relayEndpoints)
    (sendBundle env b2 r.self.connectionInfo.url
      (sendBundle env b1 r.self.connectionInfo.url r).2).2 with ⟨o, r3⟩
  rw [hrest] at hps
  simp only at hps
  subst hps
  rfl

theorem execute_run (env : Env) (a b txHash : String) (r : Run) :
    execute env a b txHash r =
      match buildBundles env a b txHash r with
      | (.ok bundles, r1) => sendBundleToMultipleRelays env bundles.1 bundles.2 r1
      | (.error e, r1) => (.error e, r1) := by
  unfold execute
  rw [M.bind_run]
  rcases buildBundles env a b txHash r with ⟨o, r1⟩
  cases o <;> rfl

/-- The outcome of `execute` is that of `buildBundles`, without the bundles. -/
theorem execute_outcome (env : Env) (a b txHash : String) (r : Run) :
    (execute env a b txHash r).1 = (buildBundles env a b txHash r).1.map (fun _ => ()) := by
  rw [execute_run]
  rcases hb : buildBundles env a b txHash r with ⟨o, r1⟩
  cases o with
  | error e => rfl
  | ok bundles => exact sendBundleToMultipleRelays_ok env _ _ r1

/-- If every collaborator answers, `execute` completes, whatever the relays do. -/
theorem execute_returns (env : Env) (h : env.Answers) (a b txHash : String) :
    Returns (execute env a b txHash) := by
  intro r
  rw [execute_outcome]
  obtain ⟨bundles, hb⟩ := buildBundles_returns env h a b txHash r
  rw [hb]
  exact ⟨(), rfl⟩

theorem sendBundleToMultipleRelays_run (env : Env) (b1 b2 : BundleWithParams) (api : String)
    (pct : AbiValue) (n : Nat) (t : List Event) :
    sendBundleToMultipleRelays env b1 b2 ⟨executorAt api pct n, t⟩ =
      (.ok (), (relaySettlements env b1 b2 ⟨executorAt api pct n, t⟩).2) := by
  unfold sendBundleToMultipleRelays
  simp only [M.bind_run, relaySettlements_run, M.pure_run]

theorem allSettled_catchLog_fulfilled (p : Except Err Response) :
    ∀ s ∈ allSettled [catchLog p], s.isFulfilled = true := by
  intro s hs
  cases p <;> simp [allSettled, catchLog] at hs <;> subst hs <;> rfl


/-- C7: whenever `buildBundles` succeeds, `execute` completes without raising,
for every outcome of the relay calls (in particular when both primary calls
resolve and every call to the 3 alternates rejects): the six alternate promises
all settle as fulfilled, and all eight relay calls are dispatched. -/
theorem execute_completes_despite_alternates (env : Env) (pairA pairB txHash api : String)
    (pct : AbiValue) (n : Nat) (t : List Event) (b1 b2 : BundleWithParams)
    (hb : (buildBundles env pairA pairB txHash ⟨executorAt api pct n, t⟩).1 = .ok (b1, b2)) :
    (execute env pairA pairB txHash ⟨executorAt api pct n, t⟩).1 = .ok () ∧
    (∃ first second rest,
      (relaySettlements env b1 b2
        (buildBundles env pairA pairB txHash ⟨executorAt api pct n, t⟩).2).1
          = .ok (first :: second :: rest) ∧
      rest.length = 6 ∧ ∀ s ∈ rest, s.isFulfilled = true) ∧
    (relayCalls (execute env pairA pairB txHash ⟨executorAt api pct n, t⟩).2.trace).length
      = (relayCalls t).length + 8 := by
  obtain ⟨k, g, nn, p1, p2, tx1, tx2, -, -, -, -, hr⟩ :=
    buildBundles_ok_trace env pairA pairB txHash ⟨executorAt api pct n, t⟩ b1 b2 hb
  have hex : execute env pairA pairB txHash ⟨executorAt api pct n, t⟩ =
      sendBundleToMultipleRelays env b1 b2
        (buildBundles env pairA pairB txHash ⟨executorAt api pct n, t⟩).2 := by
    rw [execute_run]
    rcases hbb : buildBundles env pairA pairB txHash ⟨executorAt api pct n, t⟩ with ⟨o, r1⟩
    rw [hbb] at hb
    simp only at hb
    subst hb
    rfl
  rw [hex, hr]
  simp only
  rw [sendBundleToMultipleRelays_run, relaySettlements_run]
  simp only [allSettled, List.map]
  refine ⟨trivial, ⟨_, _, _, rfl, rfl, ?_⟩, ?_⟩
  · intro s hs
    simp only [List.mem_cons, List.mem_singleton, List.not_mem_nil, or_false] at hs
    rcases hs with h | h | h | h | h | h <;> subst h
    · cases signAndPost env (sendBundleRequest (n + 2) b1) "https://relay.flashbots.net" <;> rfl
    · cases signAndPost env (sendBundleRequest (n + 3) b2) "https://relay.flashbots.net" <;> rfl
    · cases signAndPost env (sendBundleRequest (n + 4) b1) "https://mev.bloXroute.com" <;> rfl
    · cases signAndPost env (sendBundleRequest (n + 5) b2) "https://mev.bloXroute.com" <;> rfl
    · cases signAndPost env (sendBundleRequest (n + 6) b1)
        "https://bloxroute.regulated.ethereum.blocknative.com" <;> rfl
    · cases signAndPost env (sendBundleRequest (n + 7) b2)
        "https://bloxroute.regulated.ethereum.blocknative.com" <;> rfl
  · simp [relayCalls_append, relayCalls_replicate_getGasPrice, relayCalls]

/-- C7, evaluated: the primary endpoint accepts both bundles and every call to
the three alternates is refused; `execute` completes, and the settled array is
two accepted responses followed by six fulfilments with no value. -/
theorem execute_completes_despite_alternates_witness :
    (buildBundles (sampleEnv relayOnlyPrimary) "0xA" "0xB" "0x7a"
        ⟨executorAt primaryUrl (.number 80) 1, []⟩).1
      = .ok (sampleBundleOne, sampleBundleTwo) ∧
    (relaySettlements (sampleEnv relayOnlyPrimary) sampleBundleOne sampleBundleTwo
        (buildBundles (sampleEnv relayOnlyPrimary) "0xA" "0xB" "0x7a"
          ⟨executorAt primaryUrl (.number 80) 1, []⟩).2).1
      = .ok [.fulfilled (some "accepted"), .fulfilled (some "accepted"),
             .fulfilled none, .fulfilled none, .fulfilled none,
             .fulfilled none, .fulfilled none, .fulfilled none] ∧
    ((execute (sampleEnv relayOnlyPrimary) "0xA" "0xB" "0x7a"
        ⟨executorAt primaryUrl (.number 80) 1, []⟩).1 = .ok () ∧
      (∃ first second rest,
        (relaySettlements (sampleEnv relayOnlyPrimary) sampleBundleOne sampleBundleTwo
          (buildBundles (sampleEnv relayOnlyPrimary) "0xA" "0xB" "0x7a"
            ⟨executorAt primaryUrl (.number 80) 1, []⟩).2).1
            = .ok (first :: second :: rest) ∧
        rest.length = 6 ∧ ∀ s ∈ rest, s.isFulfilled = true) ∧
      (relayCalls (execute (sampleEnv relayOnlyPrimary) "0xA" "0xB" "0x7a"
          ⟨executorAt primaryUrl (.number 80) 1, []⟩).2.trace).length
        = (relayCalls []).length + 8) :=
  ⟨rfl, rfl, execute_completes_despite_alternates (sampleEnv relayOnlyPrimary)
    "0xA" "0xB" "0x7a" primaryUrl (.number 80) 1 [] sampleBundleOne sampleBundleTwo rfl⟩

/-- C8, as amended: a rejection of a primary `sendBundle` call is recorded as a
rejected entry of the settled array computed inside `sendBundleToMultipleRelays`
(the first two entries are rejected exactly when the primary calls reject, and
every alternate entry is fulfilled); that array is dropped, so
`sendBundleToMultipleRelays` always completes without a value and `execute`
hands back the outcome of `buildBundles` alone. -/
theorem primary_rejection_only_in_settlements (env : Env) (b1 b2 : BundleWithParams)
    (api : String) (pct : AbiValue) (n : Nat) (t : List Event) :
    (sendBundleToMultipleRelays env b1 b2 ⟨executorAt api pct n, t⟩).1 = .ok () ∧
    (∀ pairA pairB txHash,
      (execute env pairA pairB txHash ⟨executorAt api pct n, t⟩).1
        = (buildBundles env pairA pairB txHash ⟨executorAt api pct n, t⟩).1.map (fun _ => ())) ∧
    ∃ first second rest,
      (relaySettlements env b1 b2 ⟨executorAt api pct n, t⟩).1 = .ok (first :: second :: rest) ∧
      (∀ e, first = .rejected e ↔ signAndPost env (sendBundleRequest n b1) api = .error e) ∧
      (∀ e, second = .rejected e ↔
        signAndPost env (sendBundleRequest (n + 1) b2) api = .error e) ∧
      rest.length = 6 ∧ ∀ s ∈ rest, s.isFulfilled = true := by
  refine ⟨sendBundleToMultipleRelays_ok env b1 b2 _, fun a b h => execute_outcome env a b h _, ?_⟩
  rw [relaySettlements_run]
  simp only [allSettled, List.map]
  refine ⟨_, _, _, rfl, ?_, ?_, rfl, ?_⟩
  · intro e
    cases signAndPost env (sendBundleRequest n b1) api <;> simp [uncaught]
  · intro e
    cases signAndPost env (sendBundleRequest (n + 1) b2) api <;> simp [uncaught]
  · intro s hs
    simp only [List.mem_cons, List.mem_singleton, List.not_mem_nil, or_false] at hs
    rcases hs with h | h | h | h | h | h <;> subst h
    · cases signAndPost env (sendBundleRequest (n + 2) b1) "https://relay.flashbots.net" <;> rfl
    · cases signAndPost env (sendBundleRequest (n + 3) b2) "https://relay.flashbots.net" <;> rfl
    · cases signAndPost env (sendBundleRequest (n + 4) b1) "https://mev.bloXroute.com" <;> rfl
    · cases signAndPost env (sendBundleRequest (n + 5) b2) "https://mev.bloXroute.com" <;> rfl
    · cases signAndPost env (sendBundleRequest (n + 6) b1)
        "https://bloxroute.regulated.ethereum.blocknative.com" <;> rfl
    · cases signAndPost env (sendBundleRequest (n + 7) b2)
        "https://bloxroute.regulated.ethereum.blocknative.com" <;> rfl

/-- C8 as amended, evaluated with the primary endpoint refusing: the settled
array starts with two rejections, and the call completes. -/
theorem primary_rejection_only_in_settlements_witness :
    (relaySettlements (sampleEnv relayPrimaryDown) sampleBundleOne sampleBundleTwo
        ⟨executorAt primaryUrl (.number 80) 1, []⟩).1
      = .ok [.rejected "connection refused", .rejected "connection refused",
             .fulfilled (some "accepted"), .fulfilled (some "accepted"),
             .fulfilled (some "accepted"), .fulfilled (some "accepted"),
             .fulfilled (some "accepted"), .fulfilled (some "accepted")] ∧
    (sendBundleToMultipleRelays (sampleEnv relayPrimaryDown) sampleBundleOne sampleBundleTwo
        ⟨executorAt primaryUrl (.number 80) 1, []⟩).1 = .ok () :=
  ⟨rfl, (primary_rejection_only_in_settlements (sampleEnv relayPrimaryDown)
    sampleBundleOne sampleBundleTwo primaryUrl (.number 80) 1 []).1⟩

/-- C8 as stated fails: in a run where both primary calls are refused and in a
run where both are accepted, `sendBundleToMultipleRelays` and `execute` hand
back the same outcome to their caller. -/
theorem primary_rejection_not_surfaced :
    signAndPost (sampleEnv relayPrimaryDown) (sendBundleRequest 1 sampleBundleOne) primaryUrl
      = .error "connection refused" ∧
    signAndPost (sampleEnv relayPrimaryDown) (sendBundleRequest 2 sampleBundleTwo) primaryUrl
      = .error "connection refused" ∧
    signAndPost (sampleEnv relayAllAccept) (sendBundleRequest 1 sampleBundleOne) primaryUrl
      = .ok "accepted" ∧
    signAndPost (sampleEnv relayAllAccept) (sendBundleRequest 2 sampleBundleTwo) primaryUrl
      = .ok "accepted" ∧
    (sendBundleToMultipleRelays (sampleEnv relayPrimaryDown) sampleBundleOne sampleBundleTwo
        freshRun).1
      = (sendBundleToMultipleRelays (sampleEnv relayAllAccept) sampleBundleOne sampleBundleTwo
        freshRun).1 ∧
    (execute (sampleEnv relayPrimaryDown) "0xA" "0xB" "0x7a" freshRun).1
      = (execute (sampleEnv relayAllAccept) "0xA" "0xB" "0x7a" freshRun).1 ∧
    (execute (sampleEnv relayPrimaryDown) "0xA" "0xB" "0x7a" freshRun).1 = .ok () :=
  ⟨rfl, rfl, rfl, rfl, rfl, rfl, rfl⟩


/-- C10, as amended: one `sendBundleToMultipleRelays` call dispatches exactly 8
relay calls: each of the two bundles is sent once to the primary endpoint, which
is the url given to the constructor as `_bundleAPI`, and once to each of the
first 3 entries of the endpoint table (Flashbots, BloXroute Max Profit,
BloXroute Regulated), which are pairwise distinct; when the primary url is none
of these three, no bundle is sent twice to the same endpoint. -/
theorem fan_out_dispatches_eight (env : Env) (b1 b2 : BundleWithParams) (api : String)
    (pct : AbiValue) (n : Nat) (t : List Event) :
    ∃ calls,
      (sendBundleToMultipleRelays env b1 b2 ⟨executorAt api pct n, t⟩).2.trace = t ++ calls ∧
      calls.length = 8 ∧
      relayCalls calls =
        [ (sendBundleRequest n b1, api),
          (sendBundleRequest (n + 1) b2, api),
          (sendBundleRequest (n + 2) b1, "https://relay.flashbots.net"),
          (sendBundleRequest (n + 3) b2, "https://relay.flashbots.net"),
          (sendBundleRequest (n + 4) b1, "https://mev.bloXroute.com"),
          (sendBundleRequest (n + 5) b2, "https://mev.bloXroute.com"),
          (sendBundleRequest (n + 6) b1, "https://bloxroute.regulated.ethereum.blocknative.com"),
          (sendBundleRequest (n + 7) b2, "https://bloxroute.regulated.ethereum.blocknative.com") ] ∧
      (executorAt api pct n).connectionInfo.url = api ∧
      ((executorAt api pct n).relayEndpoints.take 3).map (fun e => e.url) =
        [ "https://relay.flashbots.net", "https://mev.bloXroute.com",
          "https://bloxroute.regulated.ethereum.blocknative.com" ] ∧
      (api ∉ [ "https://relay.flashbots.net", "https://mev.bloXroute.com",
               "https://bloxroute.regulated.ethereum.blocknative.com" ] →
        [ api, "https://relay.flashbots.net", "https://mev.bloXroute.com",
          "https://bloxroute.regulated.ethereum.blocknative.com" ].Nodup) := by
  rw [sendBundleToMultipleRelays_run, relaySettlements_run]
  refine ⟨_, rfl, rfl, rfl, rfl, rfl, ?_⟩
  intro hapi
  rw [List.nodup_cons]
  exact ⟨hapi, by decide⟩

/-- C10 as amended, evaluated with the primary url `primaryUrl`, which is not in
the table. -/
theorem fan_out_dispatches_eight_witness :
    primaryUrl ∉ [ "https://relay.flashbots.net", "https://mev.bloXroute.com",
                   "https://bloxroute.regulated.ethereum.blocknative.com" ] ∧
    ∃ calls,
      (sendBundleToMultipleRelays (sampleEnv relayAllAccept) sampleBundleOne sampleBundleTwo
        ⟨executorAt primaryUrl (.number 80) 1, []⟩).2.trace = [] ++ calls ∧
      calls.length = 8 ∧
      relayCalls calls =
        [ (sendBundleRequest 1 sampleBundleOne, primaryUrl),
          (sendBundleRequest (1 + 1) sampleBundleTwo, primaryUrl),
          (sendBundleRequest (1 + 2) sampleBundleOne, "https://relay.flashbots.net"),
          (sendBundleRequest (1 + 3) sampleBundleTwo, "https://relay.flashbots.net"),
          (sendBundleRequest (1 + 4) sampleBundleOne, "https://mev.bloXroute.com"),
          (sendBundleRequest (1 + 5) sampleBundleTwo, "https://mev.bloXroute.com"),
          (sendBundleRequest (1 + 6) sampleBundleOne,
            "https://bloxroute.regulated.ethereum.blocknative.com"),
          (sendBundleRequest (1 + 7) sampleBundleTwo,
            "https://bloxroute.regulated.ethereum.blocknative.com") ] ∧
      (executorAt primaryUrl (.number 80) 1).connectionInfo.url = primaryUrl ∧
      ((executorAt primaryUrl (.number 80) 1).relayEndpoints.take 3).map (fun e => e.url) =
        [ "https://relay.flashbots.net", "https://mev.bloXroute.com",
          "https://bloxroute.regulated.ethereum.blocknative.com" ] ∧
      (primaryUrl ∉ [ "https://relay.flashbots.net", "https://mev.bloXroute.com",
               "https://bloxroute.regulated.ethereum.blocknative.com" ] →
        [ primaryUrl, "https://relay.flashbots.net", "https://mev.bloXroute.com",
          "https://bloxroute.regulated.ethereum.blocknative.com" ].Nodup) :=
  ⟨by decide, fan_out_dispatches_eight (sampleEnv relayAllAccept) sampleBundleOne sampleBundleTwo
    primaryUrl (.number 80) 1 []⟩

/-- C10 as stated fails: construct the executor with the first entry of the
endpoint table as its primary url.  The alternates are the first three entries
of the whole table, not of the entries after the first, so the first alternate
is the primary endpoint and the first bundle is sent twice to it. -/
theorem primary_also_first_alternate :
    relayEndpointTable.head? = some { name := "Flashbots", url := "https://relay.flashbots.net" } ∧
    (constructor "https://relay.flashbots.net" (.number 80)).connectionInfo.url
      = "https://relay.flashbots.net" ∧
    (constructor "https://relay.flashbots.net" (.number 80)).relayEndpoints.take 3
      ≠ (constructor "https://relay.flashbots.net" (.number 80)).relayEndpoints.tail.take 3 ∧
    ((relayCalls (sendBundleToMultipleRelays (sampleEnv relayAllAccept) sampleBundleOne
          sampleBundleTwo ⟨constructor "https://relay.flashbots.net" (.number 80), []⟩).2.trace).map
        (fun c => (c.1.params, c.2))).count ([sampleBundleOne], "https://relay.flashbots.net")
      = 2 :=
  ⟨rfl, rfl, by decide, by decide⟩


/-! ## The request counter -/

/-- A sequence of `sendBundle` calls from any run: the `i`-th call (from 0)
takes the id `nextID + i`, and the counter goes up by the number of calls. -/
theorem runOps_sendBundle_calls (env : Env) :
    ∀ (calls : List (BundleWithParams × String)) (r : Run),
      relayCalls (runOps env (calls.map fun c => Op.sendBundle c.1 c.2) r).trace
        = relayCalls r.trace ++
          (calls.enumFrom r.self.nextID).map (fun kc => (sendBundleRequest kc.1 kc.2.1, kc.2.2)) ∧
      (runOps env (calls.map fun c => Op.sendBundle c.1 c.2) r).self.nextID
        = r.self.nextID + calls.length
  | [], r => by simp [runOps]
  | c :: cs, r => by
    have ih := runOps_sendBundle_calls env cs (sendBundle env c.1 c.2 r).2
    rw [sendBundle_run] at ih
    simp only [relayCalls_append] at ih
    have hstep : runOps env ((c :: cs).map fun c => Op.sendBundle c.1 c.2) r
        = runOps env (cs.map fun c => Op.sendBundle c.1 c.2) (sendBundle env c.1 c.2 r).2 := rfl
    rw [hstep, sendBundle_run]
    refine ⟨?_, ?_⟩
    · rw [ih.1]
      simp [relayCalls, List.enumFrom]
    · rw [ih.2]
      simp only [List.length_cons]
      omega

/-- The relay calls of one `sendBundleToMultipleRelays` call on a constructed
executor, and the counter after it. -/
theorem sendBundleToMultipleRelays_relayCalls (env : Env) (b1 b2 : BundleWithParams)
    (api : String) (pct : AbiValue) (k : Nat) (t : List Event) :
    relayCalls (sendBundleToMultipleRelays env b1 b2 ⟨executorAt api pct k, t⟩).2.trace
      = relayCalls t ++
        [ (sendBundleRequest k b1, api),
          (sendBundleRequest (k + 1) b2, api),
          (sendBundleRequest (k + 2) b1, "https://relay.flashbots.net"),
          (sendBundleRequest (k + 3) b2, "https://relay.flashbots.net"),
          (sendBundleRequest (k + 4) b1, "https://mev.bloXroute.com"),
          (sendBundleRequest (k + 5) b2, "https://mev.bloXroute.com"),
          (sendBundleRequest (k + 6) b1, "https://bloxroute.regulated.ethereum.blocknative.com"),
          (sendBundleRequest (k + 7) b2, "https://bloxroute.regulated.ethereum.blocknative.com") ] ∧
    (sendBundleToMultipleRelays env b1 b2 ⟨executorAt api pct k, t⟩).2.self
      = executorAt api pct (k + 8) := by
  rw [sendBundleToMultipleRelays_run, relaySettlements_run]
  exact ⟨by rw [relayCalls_append]; rfl, rfl⟩

/-- A successful `buildBundles` leaves the executor as it was and makes no relay
call; `execute` then continues with `sendBundleToMultipleRelays`. -/
theorem execute_ok_run (env : Env) (a b txHash api : String) (pct : AbiValue) (k : Nat)
    (t : List Event) (bundles : BundleWithParams × BundleWithParams)
    (hb : (buildBundles env a b txHash ⟨executorAt api pct k, t⟩).1 = .ok bundles) :
    ∃ evs, relayCalls evs = [] ∧
      execute env a b txHash ⟨executorAt api pct k, t⟩
        = sendBundleToMultipleRelays env bundles.1 bundles.2 ⟨executorAt api pct k, t ++ evs⟩ := by
  obtain ⟨b1, b2⟩ := bundles
  obtain ⟨j, g, nn, p1, p2, tx1, tx2, -, -, -, -, hr⟩ :=
    buildBundles_ok_trace env a b txHash ⟨executorAt api pct k, t⟩ b1 b2 hb
  refine ⟨[.getBlockNumber, .getFeeData] ++ List.replicate j .getGasPrice ++
      [.getTransactionCount,
       .makeFlashLoan (flashLoanCall env p1 ⟨g, 400000, nn⟩), .signTransaction tx1,
       .makeFlashLoan (flashLoanCall env p2 ⟨g, 400000, nn⟩), .signTransaction tx2], ?_, ?_⟩
  · simp [relayCalls_append, relayCalls_replicate_getGasPrice, relayCalls]
  · rw [execute_run]
    rcases hbb : buildBundles env a b txHash ⟨executorAt api pct k, t⟩ with ⟨o, r1⟩
    rw [hbb] at hb hr
    simp only at hb hr
    subst hb hr
    rfl


/-- A run reached from a fresh executor is a constructed executor whose counter
is one more than the number of relay calls in its history, and these calls
carry the ids from 1 on. -/
theorem runOps_fresh (env : Env) (api : String) (pct : AbiValue) (ops : List Op) :
    ∃ evs n, runOps env ops ⟨constructor api pct, []⟩ = ⟨executorAt api pct (n + 1), evs⟩ ∧
      (relayCalls evs).length = n ∧
      (relayCalls evs).map (fun c => c.1.id) = List.range' 1 n := by
  obtain ⟨evs, m, ht, hs, hi⟩ := runOps_advances env ops ⟨constructor api pct, []⟩
  simp only [List.nil_append] at ht
  have hlen : (relayCalls evs).length = m := by
    have := congrArg List.length hi
    simpa using this
  refine ⟨evs, m, ?_, hlen, hi⟩
  rcases hrun : runOps env ops ⟨constructor api pct, []⟩ with ⟨self, trace⟩
  rw [hrun] at ht hs
  simp only at ht hs
  subst ht hs
  simp only [executorAt, Run.mk.injEq, BundleExecutor.mk.injEq, and_true, true_and]
  show 1 + m = m + 1
  omega

/-- C4: a freshly constructed executor has counter 1.  A sequence of `n`
`sendBundle` calls on it makes exactly `n` relay calls, the `k`-th carrying the
envelope of the `k`-th bundle with `id = k` for `k = 1..n`, and leaves the
counter at `n + 1`.  More generally, after any sequence of uses of the executor
with `n` relay calls so far, their ids are `1, ..., n` in order and pairwise
distinct and the counter is `n + 1`; the next `sendBundle` makes one relay call
with id `n + 1`; the next `sendBundleToMultipleRelays`, and the next `execute`
whose `buildBundles` succeeds, make eight relay calls with the ids
`n + 1, ..., n + 8` in the order in which they are started. -/
theorem relay_ids_count_from_one (env : Env) (_bundleAPI : String)
    (_percentageToKeep : AbiValue) :
    (constructor _bundleAPI _percentageToKeep).nextID = 1 ∧
    (∀ calls : List (BundleWithParams × String),
      relayCalls (runOps env (calls.map fun c => Op.sendBundle c.1 c.2)
          ⟨constructor _bundleAPI _percentageToKeep, []⟩).trace
        = (calls.enumFrom 1).map (fun kc => (sendBundleRequest kc.1 kc.2.1, kc.2.2)) ∧
      (runOps env (calls.map fun c => Op.sendBundle c.1 c.2)
          ⟨constructor _bundleAPI _percentageToKeep, []⟩).self.nextID = calls.length + 1) ∧
    (∀ ops : List Op, ∃ r n,
      r = runOps env ops ⟨constructor _bundleAPI _percentageToKeep, []⟩ ∧
      (relayCalls r.trace).length = n ∧
      (relayCalls r.trace).map (fun c => c.1.id) = List.range' 1 n ∧
      ((relayCalls r.trace).map (fun c => c.1.id)).Nodup ∧
      r.self.nextID = n + 1 ∧
      (∀ bundle url,
        relayCalls (sendBundle env bundle url r).2.trace
          = relayCalls r.trace ++ [(sendBundleRequest (n + 1) bundle, url)] ∧
        (sendBundle env bundle url r).2.self.nextID = n + 2) ∧
      (∀ b1 b2,
        relayCalls (sendBundleToMultipleRelays env b1 b2 r).2.trace
          = relayCalls r.trace ++ fanOutCalls (n + 1) b1 b2 _bundleAPI ∧
        (sendBundleToMultipleRelays env b1 b2 r).2.self.nextID = n + 9) ∧
      (∀ pairA pairB txHash bundles,
        (buildBundles env pairA pairB txHash r).1 = .ok bundles →
        relayCalls (execute env pairA pairB txHash r).2.trace
          = relayCalls r.trace ++ fanOutCalls (n + 1) bundles.1 bundles.2 _bundleAPI ∧
        (execute env pairA pairB txHash r).2.self.nextID = n + 9)) := by
  refine ⟨rfl, ?_, ?_⟩
  · intro calls
    have h := runOps_sendBundle_calls env calls ⟨constructor _bundleAPI _percentageToKeep, []⟩
    refine ⟨?_, ?_⟩
    · rw [h.1]
      rfl
    · rw [h.2]
      show 1 + calls.length = calls.length + 1
      omega
  · intro ops
    obtain ⟨evs, n, hrun, hlen, hids⟩ := runOps_fresh env _bundleAPI _percentageToKeep ops
    refine ⟨_, n, rfl, ?_, ?_, ?_, ?_, ?_, ?_, ?_⟩
    · rw [hrun]; exact hlen
    · rw [hrun]; exact hids
    · rw [hrun, hids]; exact List.nodup_range' _ _
    · rw [hrun]; rfl
    · intro bundle url
      rw [hrun, sendBundle_run]
      exact ⟨by rw [relayCalls_append]; rfl, rfl⟩
    · intro b1 b2
      rw [hrun]
      obtain ⟨h1, h2⟩ := sendBundleToMultipleRelays_relayCalls env b1 b2 _bundleAPI
        _percentageToKeep (n + 1) evs
      exact ⟨h1, by rw [h2]; rfl⟩
    · intro pairA pairB txHash bundles hb
      rw [hrun] at hb ⊢
      obtain ⟨evs2, hquiet, hex⟩ := execute_ok_run env pairA pairB txHash _bundleAPI
        _percentageToKeep (n + 1) evs bundles hb
      obtain ⟨h1, h2⟩ := sendBundleToMultipleRelays_relayCalls env bundles.1 bundles.2
        _bundleAPI _percentageToKeep (n + 1) (evs ++ evs2)
      rw [hex]
      refine ⟨?_, by rw [h2]; rfl⟩
      rw [h1, relayCalls_append, hquiet, List.append_nil]
      rfl

/-- C4, evaluated: on a fresh executor, one `execute` whose alternates all
refuse, then two `sendBundle` calls; the ten relay calls carry the ids 1 to 10
and the counter stands at 11.  Three `sendBundle` calls alone carry 1, 2, 3. -/
theorem relay_ids_count_from_one_witness :
    (relayCalls (runOps (sampleEnv relayOnlyPrimary)
        [.execute "0xA" "0xB" "0x7a", .sendBundle sampleBundleOne primaryUrl,
         .sendBundle sampleBundleTwo "https://rpc.titanbuilder.xyz"] freshRun).trace).map
        (fun c => (c.1.id, c.2))
      = [ (1, primaryUrl), (2, primaryUrl),
          (3, "https://relay.flashbots.net"), (4, "https://relay.flashbots.net"),
          (5, "https://mev.bloXroute.com"), (6, "https://mev.bloXroute.com"),
          (7, "https://bloxroute.regulated.ethereum.blocknative.com"),
          (8, "https://bloxroute.regulated.ethereum.blocknative.com"),
          (9, primaryUrl), (10, "https://rpc.titanbuilder.xyz") ] ∧
    (runOps (sampleEnv relayOnlyPrimary)
        [.execute "0xA" "0xB" "0x7a", .sendBundle sampleBundleOne primaryUrl,
         .sendBundle sampleBundleTwo "https://rpc.titanbuilder.xyz"] freshRun).self.nextID = 11 ∧
    (relayCalls (runOps (sampleEnv relayPrimaryDown)
          ([(sampleBundleOne, primaryUrl), (sampleBundleTwo, primaryUrl),
            (sampleBundleOne, "https://rsync-builder.xyz")].map
              fun c => Op.sendBundle c.1 c.2)
          ⟨constructor primaryUrl (.number 80), []⟩).trace
        = [ (sendBundleRequest 1 sampleBundleOne, primaryUrl),
            (sendBundleRequest 2 sampleBundleTwo, primaryUrl),
            (sendBundleRequest 3 sampleBundleOne, "https://rsync-builder.xyz") ] ∧
      (runOps (sampleEnv relayPrimaryDown)
          ([(sampleBundleOne, primaryUrl), (sampleBundleTwo, primaryUrl),
            (sampleBundleOne, "https://rsync-builder.xyz")].map
              fun c => Op.sendBundle c.1 c.2)
          ⟨constructor primaryUrl (.number 80), []⟩).self.nextID = 3 + 1) :=
  ⟨rfl, rfl,
   (relay_ids_count_from_one (sampleEnv relayPrimaryDown) primaryUrl (.number 80)).2.1
     [(sampleBundleOne, primaryUrl), (sampleBundleTwo, primaryUrl),
      (sampleBundleOne, "https://rsync-builder.xyz")]⟩

end BundleExecutor
